import Mathlib

/-!
Verification development for the TrustyClaw SDK (trustyclaw/sdk).

This file gives a shallow embedding, in Lean, of the parts of the SDK that
the specification's claims are about:

* `usdc_payment.py`  — the USDC payment service (payment intents, the
  payment-service escrow state machine, balance notifications and
  auto-reload, multisig metadata);
* `review_system.py` — the review service (review lifecycle, disputes,
  votes, rating aggregation);
* `escrow_contract.py` — the legacy terms-based escrow client (only the
  release/refund amount calculations are needed here).

Modelling conventions:

* Python `dict[str, T]` becomes an insertion-ordered association list
  `List (String × T)` with `dictGet` / `dictSet`; `dictSet` overwrites in
  place (preserving position) exactly as Python dict assignment does, so
  `List.length` agrees with Python `len` on a dict.
* Timestamps (`datetime.now(...).isoformat()` strings) become `Nat`
  (seconds since an epoch).  `isoformat`/`fromisoformat` are the identity
  in this model, `date()` is `t / 86400`, and a one-hour `timedelta` is
  `3600`.  ISO strings compare lexicographically in the same order as the
  underlying instants, so `Nat` ordering is faithful.
* Nondeterministic inputs of an operation (generated uuids, the current
  time, the outcome of the ledger adapter's `transfer` call) are explicit
  parameters; an adapter exception is the `Except.error` case.
* Python float arithmetic on USD amounts is modelled by exact rational
  (`Rat`) arithmetic.
* A raised Python exception is an `Except.error` result; every operation
  also returns the service state it leaves behind (the raises in the
  source occur before the corresponding mutations except where noted).
* `PaymentIntent.metadata` is an open `Dict[str, Any]`; the source only
  ever reads the three multisig keys (`requires_multisig`,
  `signers_required`, `signatures_collected`), which are modelled as
  explicit fields (absent key = default value).
-/

set_option maxHeartbeats 1000000
set_option maxRecDepth 4000

namespace TrustyClaw

/-! ## Python dict as an insertion-ordered association list -/

def dictGet {α : Type} (m : List (String × α)) (k : String) : Option α :=
  match m with
  | [] => none
  | (k', v) :: rest => if k' = k then some v else dictGet rest k

def dictSet {α : Type} (m : List (String × α)) (k : String) (v : α) :
    List (String × α) :=
  match m with
  | [] => [(k, v)]
  | (k', v') :: rest =>
    if k' = k then (k, v) :: rest else (k', v') :: dictSet rest k v

/-! ## Data model of `usdc_payment.py` -/

/-- `PaymentStatus` enum. -/
inductive PaymentStatus
  | pending
  | processing
  | confirmed
  | finalized
  | failed
  | cancelled
deriving DecidableEq

/-- `PaymentStatus.value` (the lowercase enum string). -/
def PaymentStatus.value : PaymentStatus → String
  | .pending => "pending"
  | .processing => "processing"
  | .confirmed => "confirmed"
  | .finalized => "finalized"
  | .failed => "failed"
  | .cancelled => "cancelled"

/-- `EscrowPaymentStatus` enum. -/
inductive EscrowPaymentStatus
  | pending
  | funded
  | released
  | refunded
  | disputed
deriving DecidableEq

/-- `EscrowPaymentStatus.value`. -/
def EscrowPaymentStatus.value : EscrowPaymentStatus → String
  | .pending => "pending"
  | .funded => "funded"
  | .released => "released"
  | .refunded => "refunded"
  | .disputed => "disputed"

/-- Receipt returned by the ledger adapter's `transfer` call
(`TransferResult`: only the fields `execute_payment_intent` reads). -/
structure TransferReceipt where
  signature : String
  explorer_url : String
deriving DecidableEq

/-- `PaymentIntent` dataclass.  The three multisig metadata keys are
explicit fields; an absent key is the default value (`false` / `[]`). -/
structure PaymentIntent where
  intent_id : String
  from_wallet : String
  to_wallet : String
  amount : Int
  description : String
  status : PaymentStatus
  created_at : Nat
  executed_at : Option Nat
  confirmed_at : Option Nat
  signature : Option String
  requires_multisig : Bool
  signers_required : List String
  signatures_collected : List (String × String)
deriving DecidableEq

/-- `PaymentIntent.amount_usd` (float division modelled exactly on `Rat`). -/
def PaymentIntent.amount_usd (p : PaymentIntent) : Rat :=
  (p.amount : Rat) / 1000000

/-- `EscrowPayment` dataclass. -/
structure EscrowPayment where
  escrow_id : String
  payment_intent_id : String
  amount : Int
  from_wallet : String
  to_wallet : String
  status : EscrowPaymentStatus
  funded_at : Option Nat
  released_at : Option Nat
  refunded_at : Option Nat
  signatures : List (String × String)
  created_at : Nat
deriving DecidableEq

/-- `EscrowPayment.is_fully_signed`: "multi-sig is complete (2-of-3)" —
a hardcoded 2-signature threshold. -/
def EscrowPayment.is_fully_signed (e : EscrowPayment) : Bool :=
  e.signatures.length ≥ 2

/-- `PaymentResult` dataclass. -/
structure PaymentResult where
  success : Bool
  payment_intent_id : Option String := none
  signature : Option String := none
  status : Option PaymentStatus := none
  error : Option String := none
  explorer_url : Option String := none
deriving DecidableEq

/-- `Payment` (historical record) dataclass. -/
structure Payment where
  payment_id : String
  from_wallet : String
  to_wallet : String
  amount : Int
  description : String
  status : PaymentStatus
  signature : String
  created_at : Nat
  confirmed_at : Option Nat
deriving DecidableEq

/-- `BalanceNotification` dataclass. -/
structure BalanceNotification where
  wallet_address : String
  threshold_usd : Rat
  callback_url : Option String := none
  auto_reload_enabled : Bool := false
  auto_reload_amount : Int := 100000000
  auto_reload_max_daily : Int := 0
  last_notified_at : Option Nat := none
  last_reloaded_at : Option Nat := none
  reload_count_today : Int := 0
deriving DecidableEq

/-- `MultisigConfig` dataclass. -/
structure MultisigConfig where
  threshold_usd : Rat
  required_signers : List String
  required_count : Int := 2
  recovery_signer : Option String := none
deriving DecidableEq

/-- The mutable state of a `USDCPaymentService` instance: its multisig
config and the four in-memory stores (notification callbacks are opaque
I/O and are not part of the state model). -/
structure ServiceState where
  multisig_config : MultisigConfig
  payment_intents : List (String × PaymentIntent)
  escrow_payments : List (String × EscrowPayment)
  payment_history : List Payment
  balance_notifications : List (String × BalanceNotification)
deriving DecidableEq

/-- A fresh service (`USDCPaymentService.__init__`) with the given
multisig config and empty stores. -/
def ServiceState.init (cfg : MultisigConfig) : ServiceState :=
  { multisig_config := cfg
    payment_intents := []
    escrow_payments := []
    payment_history := []
    balance_notifications := [] }

/-! ## Operations of `USDCPaymentService`

Generated uuids (`intent_id`, `payment_id`), the current time (`now`) and
the ledger adapter's `transfer` outcome are explicit parameters.  Each
operation returns its result together with the service state it leaves
behind; a raised `PaymentError` is an `Except.error` (the raises in the
source occur before any mutation). -/

/-- `USDCPaymentService.create_payment_intent`.  Error strings:
`"Amount must be positive"` is the spec's InvalidAmount,
`"Amount below minimum (1,000 microUSDC)"` is the spec's BelowMinimum. -/
def create_payment_intent (st : ServiceState) (amount : Int)
    (from_wallet to_wallet description : String) (intent_id : String)
    (now : Nat) : Except String PaymentIntent × ServiceState :=
  if amount ≤ 0 then
    (.error ("Amount must be positive"), st)
  else if amount < 1000 then
    (.error ("Amount below minimum (1,000 microUSDC)"), st)
  else
    let amount_usd : Rat := (amount : Rat) / 1000000
    let requires_multisig : Bool :=
      decide (0 < st.multisig_config.threshold_usd) &&
      decide (st.multisig_config.threshold_usd ≤ amount_usd)
    let intent : PaymentIntent :=
      { intent_id := intent_id
        from_wallet := from_wallet
        to_wallet := to_wallet
        amount := amount
        description := description
        status := .pending
        created_at := now
        executed_at := none
        confirmed_at := none
        signature := none
        requires_multisig := requires_multisig
        signers_required :=
          if requires_multisig then st.multisig_config.required_signers
          else []
        signatures_collected := [] }
    (.ok intent,
      { st with
        payment_intents := dictSet st.payment_intents intent_id intent })

/-- `USDCPaymentService.execute_payment_intent`.  The transient
PENDING→PROCESSING write is immediately overwritten by CONFIRMED inside
the same call and is not separately observable, so only the final
assignment is modelled. -/
def execute_payment_intent (st : ServiceState) (intent_id : String)
    (transfer : Except String TransferReceipt) (payment_id : String)
    (now : Nat) : PaymentResult × ServiceState :=
  match dictGet st.payment_intents intent_id with
  | none =>
    ({ success := false
       error := some ("Payment intent " ++ intent_id ++ " not found") }, st)
  | some intent =>
    if ¬ (intent.status = .pending ∨ intent.status = .confirmed) then
      ({ success := false
         payment_intent_id := some intent_id
         error := some ("Cannot execute intent in " ++ intent.status.value
           ++ " state") }, st)
    else if intent.requires_multisig && intent.signatures_collected.isEmpty
    then
      ({ success := false
         payment_intent_id := some intent_id
         error := some ("Multisig required but no signatures collected") },
       st)
    else
      match transfer with
      | .ok r =>
        let intent' := { intent with
          status := .confirmed
          executed_at := some now
          confirmed_at := some now
          signature := some r.signature }
        let payment : Payment :=
          { payment_id := payment_id
            from_wallet := intent.from_wallet
            to_wallet := intent.to_wallet
            amount := intent.amount
            description := intent.description
            status := intent'.status
            signature := r.signature
            created_at := intent.created_at
            confirmed_at := intent'.confirmed_at }
        ({ success := true
           payment_intent_id := some intent_id
           signature := some r.signature
           status := some intent'.status
           explorer_url := some r.explorer_url },
         { st with
           payment_intents := dictSet st.payment_intents intent_id intent'
           payment_history := st.payment_history ++ [payment] })
      | .error e =>
        ({ success := false
           payment_intent_id := some intent_id
           status := some .failed
           error := some e },
         { st with
           payment_intents := dictSet st.payment_intents intent_id
             { intent with status := .failed } })

/-- `USDCPaymentService.cancel_payment_intent`. -/
def cancel_payment_intent (st : ServiceState) (intent_id : String) :
    PaymentResult × ServiceState :=
  match dictGet st.payment_intents intent_id with
  | none =>
    ({ success := false
       error := some ("Payment intent " ++ intent_id ++ " not found") }, st)
  | some intent =>
    if intent.status ≠ .pending then
      ({ success := false
         payment_intent_id := some intent_id
         error := some ("Cannot cancel intent in " ++ intent.status.value
           ++ " state") }, st)
    else
      ({ success := true
         payment_intent_id := some intent_id
         status := some .cancelled },
       { st with
         payment_intents := dictSet st.payment_intents intent_id
           { intent with status := .cancelled } })

/-- `USDCPaymentService.execute_escrow_payment`: creates the linked intent
(raises propagate, leaving no escrow) and a PENDING escrow record.  The
caller-side metadata stash (`escrow_id`, `type`) is never read back by the
service and is not modelled. -/
def execute_escrow_payment (st : ServiceState) (escrow_id : String)
    (amount : Int) (from_wallet to_wallet description : String)
    (intent_id : String) (now : Nat) :
    Except String EscrowPayment × ServiceState :=
  match create_payment_intent st amount from_wallet to_wallet
      ("Escrow: " ++ description) intent_id now with
  | (.error e, st1) => (.error e, st1)
  | (.ok intent, st1) =>
    let escrow : EscrowPayment :=
      { escrow_id := escrow_id
        payment_intent_id := intent.intent_id
        amount := amount
        from_wallet := from_wallet
        to_wallet := to_wallet
        status := .pending
        funded_at := none
        released_at := none
        refunded_at := none
        signatures := []
        created_at := now }
    (.ok escrow,
      { st1 with
        escrow_payments := dictSet st1.escrow_payments escrow_id escrow })

/-- `USDCPaymentService.fund_escrow_payment`. -/
def fund_escrow_payment (st : ServiceState) (escrow_id : String)
    (transfer : Except String TransferReceipt) (payment_id : String)
    (now : Nat) : PaymentResult × ServiceState :=
  match dictGet st.escrow_payments escrow_id with
  | none =>
    ({ success := false
       error := some ("Escrow payment " ++ escrow_id ++ " not found") }, st)
  | some escrow =>
    if escrow.status ≠ .pending then
      ({ success := false
         error := some ("Escrow is " ++ escrow.status.value
           ++ ", cannot fund") }, st)
    else
      let res := execute_payment_intent st escrow.payment_intent_id transfer
        payment_id now
      if res.1.success then
        (res.1,
         { res.2 with
           escrow_payments := dictSet res.2.escrow_payments escrow_id
             { escrow with status := .funded, funded_at := some now } })
      else res

/-- Python `if signature: escrow.signatures[authority] = signature` at the
top of `release_escrow_payment` (`None` and the empty string are falsy). -/
def applyReleaseSignature (e : EscrowPayment) (authority : String)
    (signature : Option String) : EscrowPayment :=
  match signature with
  | some s =>
    if s = "" then e
    else { e with signatures := dictSet e.signatures authority s }
  | none => e

/-- `USDCPaymentService.release_escrow_payment`.  An optional `signature`
argument is recorded in the escrow's signature map before the multisig
check, and that mutation persists even when the check then fails. -/
def release_escrow_payment (st : ServiceState) (escrow_id : String)
    (authority : String) (signature : Option String) (now : Nat) :
    PaymentResult × ServiceState :=
  match dictGet st.escrow_payments escrow_id with
  | none =>
    ({ success := false
       error := some ("Escrow payment " ++ escrow_id ++ " not found") }, st)
  | some escrow =>
    if escrow.status ≠ .funded then
      ({ success := false
         error := some ("Escrow is " ++ escrow.status.value
           ++ ", cannot release") }, st)
    else
      let escrow1 := applyReleaseSignature escrow authority signature
      match dictGet st.payment_intents escrow.payment_intent_id with
      | some intent =>
        if intent.requires_multisig && ! escrow1.is_fully_signed then
          ({ success := false
             payment_intent_id := some intent.intent_id
             error := some ("Need "
               ++ toString (2 - escrow1.signatures.length)
               ++ " more signature(s)") },
           { st with
             escrow_payments := dictSet st.escrow_payments escrow_id
               escrow1 })
        else
          ({ success := true
             payment_intent_id := some escrow.payment_intent_id
             status := some .finalized },
           { st with
             escrow_payments := dictSet st.escrow_payments escrow_id
               { escrow1 with
                 status := EscrowPaymentStatus.released
                 released_at := some now } })
      | none =>
        ({ success := true
           payment_intent_id := some escrow.payment_intent_id
           status := some .finalized },
         { st with
           escrow_payments := dictSet st.escrow_payments escrow_id
             { escrow1 with
               status := EscrowPaymentStatus.released
               released_at := some now } })

/-- `USDCPaymentService.refund_escrow_payment`: refunds the escrow and
sets the linked intent's status to CANCELLED (unconditionally, whatever
status the intent currently has). -/
def refund_escrow_payment (st : ServiceState) (escrow_id : String)
    (now : Nat) : PaymentResult × ServiceState :=
  match dictGet st.escrow_payments escrow_id with
  | none =>
    ({ success := false
       error := some ("Escrow payment " ++ escrow_id ++ " not found") }, st)
  | some escrow =>
    if escrow.status ≠ .funded then
      ({ success := false
         error := some ("Escrow is " ++ escrow.status.value
           ++ ", cannot refund") }, st)
    else
      let st1 := { st with
        escrow_payments := dictSet st.escrow_payments escrow_id
          { escrow with status := .refunded, refunded_at := some now } }
      let st2 := match dictGet st1.payment_intents escrow.payment_intent_id
        with
        | some intent =>
          { st1 with
            payment_intents := dictSet st1.payment_intents
              escrow.payment_intent_id { intent with status := .cancelled } }
        | none => st1
      ({ success := true
         payment_intent_id := some escrow.payment_intent_id
         status := some .cancelled }, st2)

/-- One engine operation, with its environment inputs (uuids, time,
adapter outcome) packaged in. -/
inductive PayOp
  | createIntent (amount : Int)
      (from_wallet to_wallet description intent_id : String) (now : Nat)
  | executeIntent (intent_id : String)
      (transfer : Except String TransferReceipt) (payment_id : String)
      (now : Nat)
  | cancelIntent (intent_id : String)
  | createEscrow (escrow_id : String) (amount : Int)
      (from_wallet to_wallet description intent_id : String) (now : Nat)
  | fundEscrow (escrow_id : String)
      (transfer : Except String TransferReceipt) (payment_id : String)
      (now : Nat)
  | releaseEscrow (escrow_id authority : String) (signature : Option String)
      (now : Nat)
  | refundEscrow (escrow_id : String) (now : Nat)

/-- State reached after one engine operation (results discarded; the
state an operation leaves behind is kept even when it raises). -/
def stepPay (st : ServiceState) : PayOp → ServiceState
  | .createIntent a f t d i n => (create_payment_intent st a f t d i n).2
  | .executeIntent i tr p n => (execute_payment_intent st i tr p n).2
  | .cancelIntent i => (cancel_payment_intent st i).2
  | .createEscrow e a f t d i n => (execute_escrow_payment st e a f t d i n).2
  | .fundEscrow e tr p n => (fund_escrow_payment st e tr p n).2
  | .releaseEscrow e auth s n => (release_escrow_payment st e auth s n).2
  | .refundEscrow e n => (refund_escrow_payment st e n).2

/-- State reached after a sequence of engine operations. -/
def runPay (st : ServiceState) : List PayOp → ServiceState
  | [] => st
  | op :: ops => runPay (stepPay st op) ops

/-! ## Balance notifications and auto-reload (`usdc_payment.py`) -/

/-- `datetime.date()` on the `Nat` time model: the day number. -/
def dateOf (t : Nat) : Nat := t / 86400

/-- `USDCPaymentService._execute_auto_reload` on the notification record it
receives.  The two date guards in the source are kept separately; the
local `reload_record` dict is constructed and then dropped by the source
(it is never submitted anywhere), so it does not appear in the model. -/
def execute_auto_reload (n : BalanceNotification) (now : Nat) :
    BalanceNotification :=
  let same_day : Bool := match n.last_reloaded_at with
    | some last => decide (dateOf last = dateOf now)
    | none => false
  if same_day && decide (n.auto_reload_max_daily ≤ n.reload_count_today)
  then n
  else if same_day then n
  else { n with
    last_reloaded_at := some now
    reload_count_today := n.reload_count_today + 1 }

/-- Result dict of `check_balance_and_notify` (the alert payload itself is
outward I/O and is not modelled). -/
structure CheckResult where
  alert_sent : Bool
  reason : Option String := none
deriving DecidableEq

/-- `USDCPaymentService.check_balance_and_notify`.  The wallet balance
reported by the ledger adapter and the current time are parameters;
callback/webhook delivery is outward I/O. -/
def check_balance_and_notify (st : ServiceState) (wallet_address : String)
    (balance : Rat) (force : Bool) (now : Nat) :
    CheckResult × ServiceState :=
  match dictGet st.balance_notifications wallet_address with
  | none =>
    ({ alert_sent := false, reason := some ("No notification registered") },
     st)
  | some n =>
    if n.threshold_usd ≤ balance then
      ({ alert_sent := false, reason := some ("Balance above threshold") },
       st)
    else
      let rate_limited : Bool := match n.last_notified_at with
        | some last => !force && decide (now - last < 3600)
        | none => false
      if rate_limited then
        ({ alert_sent := false, reason := some ("Rate limited") }, st)
      else
        let n1 := { n with last_notified_at := some now }
        let n2 := if n1.auto_reload_enabled then execute_auto_reload n1 now
          else n1
        ({ alert_sent := true },
         { st with
           balance_notifications := dictSet st.balance_notifications
             wallet_address n2 })

/-! ## Data model of `review_system.py` -/

/-- `ReviewStatus` enum. -/
inductive ReviewStatus
  | pending
  | submitted
  | disputed
  | resolved
  | archived
deriving DecidableEq

/-- `DisputeResolution` enum. -/
inductive DisputeResolution
  | approved
  | rejected
  | modified
  | escalated
deriving DecidableEq

/-- `Review` dataclass. -/
structure Review where
  review_id : String
  provider : String
  renter : String
  skill_id : String
  rating : Int
  completed_on_time : Bool
  output_quality : String
  comment : String
  created_at : Nat
  status : ReviewStatus
  dispute_reason : Option String := none
  dispute_resolved_at : Option Nat := none
  resolution : Option DisputeResolution := none
  dispute_comments : List String := []
  helpful_votes : Int := 0
  unhelpful_votes : Int := 0
deriving DecidableEq

/-- `ReviewDispute` dataclass. -/
structure ReviewDispute where
  dispute_id : String
  review_id : String
  filed_by : String
  reason : String
  evidence : List String
  filed_at : Nat
  resolved : Bool := false
  resolution : Option DisputeResolution := none
  resolver_comments : Option String := none
  resolved_at : Option Nat := none
deriving DecidableEq

/-- `ReviewVote` dataclass. -/
structure ReviewVote where
  vote_id : String
  review_id : String
  voter : String
  helpful : Bool
  voted_at : Nat
deriving DecidableEq

/-- The mutable state of a `ReviewService` instance (`mock=False`, so the
stores start empty; with `mock=True` two sample reviews are pre-inserted,
which only changes the initial state, not any operation). -/
structure ReviewState where
  reviews : List (String × Review)
  disputes : List (String × ReviewDispute)
  votes : List (String × ReviewVote)
  review_ids_by_agent : List (String × List String)
deriving DecidableEq

/-- A fresh `ReviewService(mock=False)`. -/
def ReviewState.empty : ReviewState :=
  { reviews := [], disputes := [], votes := [], review_ids_by_agent := [] }

/-- Python `d.setdefault(k, []).append(x)`. -/
def indexAppend (m : List (String × List String)) (k : String)
    (x : String) : List (String × List String) :=
  match dictGet m k with
  | some l => dictSet m k (l ++ [x])
  | none => dictSet m k [x]

/-! ## Operations of `ReviewService` -/

/-- `ReviewService.create_review`: always stored with status PENDING. -/
def create_review (st : ReviewState)
    (provider renter skill_id : String) (rating : Int)
    (completed_on_time : Bool) (output_quality comment : String)
    (review_id : String) (now : Nat) : Review × ReviewState :=
  let review : Review :=
    { review_id := review_id
      provider := provider
      renter := renter
      skill_id := skill_id
      rating := rating
      completed_on_time := completed_on_time
      output_quality := output_quality
      comment := comment
      created_at := now
      status := .pending }
  (review, { st with reviews := dictSet st.reviews review_id review })

/-- `ReviewService.submit_review`: sets the review's status to SUBMITTED
and appends its id to the provider's index — with no guard on the current
status and no membership check on the index. -/
def submit_review (st : ReviewState) (review_id : String) :
    Except String Review × ReviewState :=
  match dictGet st.reviews review_id with
  | none => (.error ("Review " ++ review_id ++ " not found"), st)
  | some review =>
    let review' := { review with status := ReviewStatus.submitted }
    (.ok review',
     { st with
       reviews := dictSet st.reviews review_id review'
       review_ids_by_agent := indexAppend st.review_ids_by_agent
         review.provider review_id })

/-- Stable insertion (descending by `created_at`) used to model Python's
stable `sorted(..., key=created_at, reverse=True)`. -/
def insertDescByCreated (x : Review) : List Review → List Review
  | [] => [x]
  | y :: ys =>
    if y.created_at ≤ x.created_at then x :: y :: ys
    else y :: insertDescByCreated x ys

/-- Stable descending sort by `created_at`: computes the same list as
Python's stable `sorted(..., reverse=True)` on the same input. -/
def sortDescByCreated : List Review → List Review
  | [] => []
  | x :: xs => insertDescByCreated x (sortDescByCreated xs)

/-- `ReviewService.get_agent_reviews` (the `limit` default in the source
is 50). -/
def get_agent_reviews (st : ReviewState) (agent_address : String)
    (status : Option ReviewStatus) (limit : Nat) : List Review :=
  let review_ids := (dictGet st.review_ids_by_agent agent_address).getD []
  let reviews := review_ids.filterMap (fun rid =>
    match dictGet st.reviews rid with
    | some r =>
      match status with
      | none => some r
      | some s => if r.status = s then some r else none
    | none => none)
  (sortDescByCreated reviews).take limit

/-- `ReviewService.file_dispute`. -/
def file_dispute (st : ReviewState) (review_id filed_by reason : String)
    (evidence : List String) (dispute_id : String) (now : Nat) :
    Except String ReviewDispute × ReviewState :=
  match dictGet st.reviews review_id with
  | none => (.error ("Review " ++ review_id ++ " not found"), st)
  | some review =>
    if review.status ≠ .submitted then
      (.error ("Can only dispute submitted reviews"), st)
    else
      let dispute : ReviewDispute :=
        { dispute_id := dispute_id
          review_id := review_id
          filed_by := filed_by
          reason := reason
          evidence := evidence
          filed_at := now }
      let review' := { review with
        status := ReviewStatus.disputed
        dispute_reason := some reason }
      (.ok dispute,
       { st with
         disputes := dictSet st.disputes dispute_id dispute
         reviews := dictSet st.reviews review_id review' })

/-- `ReviewService.resolve_dispute`.  The source mutates the dispute
record before looking the review up again, so a dangling `review_id`
raises a `KeyError` with the dispute already marked resolved; that partial
state is modelled faithfully. -/
def resolve_dispute (st : ReviewState) (dispute_id : String)
    (resolution : DisputeResolution) (resolver_comments : Option String)
    (now : Nat) : Except String Review × ReviewState :=
  match dictGet st.disputes dispute_id with
  | none => (.error ("Dispute " ++ dispute_id ++ " not found"), st)
  | some dispute =>
    if dispute.resolved then (.error ("Dispute already resolved"), st)
    else
      let dispute' := { dispute with
        resolved := true
        resolution := some resolution
        resolver_comments := resolver_comments
        resolved_at := some now }
      let st1 := { st with
        disputes := dictSet st.disputes dispute_id dispute' }
      match dictGet st1.reviews dispute.review_id with
      | none => (.error ("KeyError: " ++ dispute.review_id), st1)
      | some review =>
        let review' := { review with
          status := ReviewStatus.resolved
          resolution := some resolution
          dispute_resolved_at := some now
          dispute_comments := review.dispute_comments
            ++ [resolver_comments.getD ("")] }
        (.ok review',
         { st1 with
           reviews := dictSet st1.reviews dispute.review_id review' })

/-- `ReviewService.vote_review`. -/
def vote_review (st : ReviewState) (review_id voter : String)
    (helpful : Bool) (vote_id : String) (now : Nat) :
    Except String ReviewVote × ReviewState :=
  match dictGet st.reviews review_id with
  | none => (.error ("Review " ++ review_id ++ " not found"), st)
  | some review =>
    let vote : ReviewVote :=
      { vote_id := vote_id
        review_id := review_id
        voter := voter
        helpful := helpful
        voted_at := now }
    let review' :=
      if helpful then { review with helpful_votes := review.helpful_votes + 1 }
      else { review with unhelpful_votes := review.unhelpful_votes + 1 }
    (.ok vote,
     { st with
       votes := dictSet st.votes vote_id vote
       reviews := dictSet st.reviews review_id review' })

/-- One review-service operation, with environment inputs packaged in. -/
inductive ReviewOp
  | create (provider renter skill_id : String) (rating : Int)
      (completed_on_time : Bool) (output_quality comment review_id : String)
      (now : Nat)
  | submit (review_id : String)
  | dispute (review_id filed_by reason : String) (evidence : List String)
      (dispute_id : String) (now : Nat)
  | resolve (dispute_id : String) (resolution : DisputeResolution)
      (resolver_comments : Option String) (now : Nat)
  | vote (review_id voter : String) (helpful : Bool) (vote_id : String)
      (now : Nat)

/-- State reached after one review-service operation (results discarded;
the state an operation leaves behind is kept even when it raises). -/
def stepReview (st : ReviewState) : ReviewOp → ReviewState
  | .create p r sk ra ot q c rid n => (create_review st p r sk ra ot q c rid n).2
  | .submit rid => (submit_review st rid).2
  | .dispute rid fb rs ev did n => (file_dispute st rid fb rs ev did n).2
  | .resolve did res rc n => (resolve_dispute st did res rc n).2
  | .vote rid v h vid n => (vote_review st rid v h vid n).2

/-! ## Rating aggregation (`ReviewService.calculate_agent_rating`) -/

/-- Python `round` (banker's rounding, half to even), modelled exactly on
`Rat`. -/
def roundHalfEven (q : Rat) : Int :=
  let f := ⌊q⌋
  let r := q - (f : Rat)
  if 2 * r < 1 then f
  else if 1 < 2 * r then f + 1
  else if f % 2 = 0 then f
  else f + 1

/-- Python `round(x, 2)`. -/
def round2 (q : Rat) : Rat := (roundHalfEven (q * 100) : Rat) / 100

/-- Python `round(x, 1)`. -/
def round1 (q : Rat) : Rat := (roundHalfEven (q * 10) : Rat) / 10

/-- The dict returned by `calculate_agent_rating`.  `helpful_rate` is
`none` in the sentinel branch, whose dict has no such key. -/
structure RatingSummary where
  agent : String
  total_reviews : Nat
  average_rating : Rat
  on_time_rate : Rat
  helpful_rate : Option Rat
  quality_breakdown : List (String × Nat)
  rating : String
deriving DecidableEq

/-- Python `counts[k] = counts.get(k, 0) + 1`. -/
def bumpCount (m : List (String × Nat)) (k : String) :
    List (String × Nat) :=
  dictSet m k ((dictGet m k).getD 0 + 1)

/-- `ReviewService.calculate_agent_rating`.  It queries
`get_agent_reviews` with `status=SUBMITTED` and the default `limit=50`;
float arithmetic is modelled exactly on `Rat`. -/
def calculate_agent_rating (st : ReviewState) (agent_address : String)
    (min_reviews : Int) : RatingSummary :=
  let reviews := get_agent_reviews st agent_address (some .submitted) 50
  if (reviews.length : Int) < min_reviews then
    { agent := agent_address
      total_reviews := reviews.length
      average_rating := 0
      on_time_rate := 0
      helpful_rate := none
      quality_breakdown := []
      rating := ("insufficient_reviews") }
  else
    let avg_rating : Rat :=
      ((reviews.map (fun r => r.rating)).sum : Rat) / (reviews.length : Rat)
    let on_time_rate : Rat :=
      ((reviews.filter (fun r => r.completed_on_time)).length : Rat)
        / (reviews.length : Rat) * 100
    let quality_counts :=
      reviews.foldl (fun m r => bumpCount m r.output_quality)
        [(("excellent"), 0), (("good"), 0), (("fair"), 0), (("poor"), 0)]
    let total_votes : Int :=
      (reviews.map (fun r => r.helpful_votes + r.unhelpful_votes)).sum
    let helpful_rate : Rat :=
      if 0 < total_votes then
        ((reviews.map (fun r => r.helpful_votes)).sum : Rat)
          / (total_votes : Rat) * 100
      else 0
    let rating : String :=
      if (9 : Rat) / 2 ≤ avg_rating then ("excellent")
      else if (7 : Rat) / 2 ≤ avg_rating then ("good")
      else if (5 : Rat) / 2 ≤ avg_rating then ("average")
      else ("needs_work")
    { agent := agent_address
      total_reviews := reviews.length
      average_rating := round2 avg_rating
      on_time_rate := round1 on_time_rate
      helpful_rate := some (round1 helpful_rate)
      quality_breakdown := quality_counts
      rating := rating }

/-! ## Legacy escrow (`escrow_contract.py`): release/refund amounts -/

/-- `EscrowState` enum of the legacy terms-based escrow. -/
inductive EscrowState
  | created
  | funded
  | active
  | completed
  | disputed
  | released
  | refunded
  | cancelled
deriving DecidableEq

/-- `EscrowTerms` dataclass. -/
structure EscrowTerms where
  renter : String
  provider : String
  skill_id : String
  amount : Int
  duration_hours : Int
  deliverable_hash : String
  created_at : Nat
  expires_at : Nat
deriving DecidableEq

/-- `Escrow` dataclass (legacy variant). -/
structure Escrow where
  escrow_id : String
  terms : EscrowTerms
  state : EscrowState := .created
  funded_at : Option Nat := none
  completed_at : Option Nat := none
  released_at : Option Nat := none
  refunded_at : Option Nat := none
  dispute_reason : Option String := none
  dispute_resolved_at : Option Nat := none
  dispute_resolution : Option String := none
  actual_deliverable_hash : Option String := none
  provider_signature : Option String := none
  renter_signature : Option String := none
  created_at : Nat := 0
deriving DecidableEq

/-- The `_escrows` registry of an `EscrowClient`. -/
structure EscrowClientState where
  escrows : List (String × Escrow)
deriving DecidableEq

/-- `EscrowClient.get_escrow`. -/
def get_escrow (c : EscrowClientState) (escrow_id : String) :
    Option Escrow :=
  dictGet c.escrows escrow_id

/-- Truncation toward zero on `Rat` (Python `int(...)` on a float). -/
def ratTrunc (q : Rat) : Int :=
  if 0 ≤ q then ⌊q⌋ else -⌊-q⌋

/-- `EscrowClient.release_amount_for_escrow`: the full principal, 0 for an
unknown escrow id. -/
def release_amount_for_escrow (c : EscrowClientState)
    (escrow_id : String) : Int :=
  match get_escrow c escrow_id with
  | some escrow => escrow.terms.amount
  | none => 0

/-- The binary64 double nearest to the literal `0.99`, as an exact
rational: `8917127262193582 / 2^53`.  The real `99/100` lies
`8/(100·2^53)` above this value. -/
def float99 : Rat := 8917127262193582 / 9007199254740992

/-- `⌊log2 q⌋` of a positive rational, computed from `Nat.log2` of the
numerator and denominator with a one-step correction. -/
def ratLog2 (q : Rat) : Int :=
  let k0 : Int := (Nat.log2 q.num.toNat : Int) - (Nat.log2 q.den : Int)
  if (2 : Rat) ^ k0 ≤ q then k0 else k0 - 1

/-- Round a positive rational to the binary64 grid of its own binade —
53 significant bits, ties to even — as an exact rational. -/
def roundB64Mag (q : Rat) : Rat :=
  let s : Rat := (2 : Rat) ^ (ratLog2 q - 52)
  (roundHalfEven (q / s) : Rat) * s

/-- Round a rational to the nearest binary64 double (IEEE 754 round half
to even), as an exact rational.  Faithful on the normal finite range;
the claims evaluate it only well inside that range (no overflow to
infinity — where Python `int()` would raise `OverflowError` — and no
subnormals). -/
def roundB64 (q : Rat) : Rat :=
  if q = 0 then 0
  else if q < 0 then -(roundB64Mag (-q))
  else roundB64Mag q

/-- `EscrowClient.refund_amount_for_escrow`: Python
`int(escrow.terms.amount * 0.99)` in binary64 float arithmetic — the
integer principal is converted to the nearest double, multiplied by the
double nearest 0.99, the product rounded to the nearest double again,
and the result truncated toward zero; every rounding step is modelled
exactly on `Rat`.  0 for an unknown escrow id. -/
def refund_amount_for_escrow (c : EscrowClientState)
    (escrow_id : String) : Int :=
  match get_escrow c escrow_id with
  | some escrow =>
    ratTrunc (roundB64 (roundB64 (escrow.terms.amount : Rat) * float99))
  | none => 0

/-- State reached after a sequence of review-service operations. -/
def runReview (st : ReviewState) : List ReviewOp → ReviewState
  | [] => st
  | op :: ops => runReview (stepReview st op) ops

/-- A fresh payment service whose multisig policy is disabled
(`threshold_usd = 0`), as scenario input for concrete traces. -/
def noMultisigService : ServiceState :=
  ServiceState.init { threshold_usd := 0, required_signers := [] }

/-- Scenario input: 51 distinct reviews for provider `"ag"`, each created
and then submitted once. -/
def fiftyOneReviewOps : List ReviewOp :=
  ((List.range 51).map (fun i =>
    [ReviewOp.create ("ag") ("rn") ("sk") 5 true ("good") ("c")
       (toString i) 0,
     ReviewOp.submit (toString i)])).flatten

/-- The review-service state after `fiftyOneReviewOps`. -/
def fiftyOneReviewState : ReviewState :=
  runReview ReviewState.empty fiftyOneReviewOps

/-- Scenario input: one review for provider `"ag"`, created once and then
submitted 51 times. -/
def resubmit51Ops : List ReviewOp :=
  ReviewOp.create ("ag") ("rn") ("sk") 4 true ("good") ("c") ("r1") 0
    :: List.replicate 51 (ReviewOp.submit ("r1"))

/-- The review-service state after `resubmit51Ops`. -/
def resubmit51State : ReviewState :=
  runReview ReviewState.empty resubmit51Ops

/-- Scenario input: a legacy escrow registry holding one escrow with
principal 12345. -/
def sampleEscrow : Escrow :=
  { escrow_id := ("e1")
    terms :=
      { renter := ("rn")
        provider := ("pv")
        skill_id := ("sk")
        amount := 12345
        duration_hours := 24
        deliverable_hash := ("dh")
        created_at := 0
        expires_at := 0 }
    created_at := 0 }

/-- Scenario input: the registry holding `sampleEscrow`. -/
def sampleEscrowClient : EscrowClientState :=
  ⟨[(("e1"), sampleEscrow)]⟩

/-- Scenario input: a PENDING intent without multisig. -/
def pendingIntent : PaymentIntent :=
  { intent_id := ("i1")
    from_wallet := ("A")
    to_wallet := ("B")
    amount := 2000
    description := ("d")
    status := .pending
    created_at := 0
    executed_at := none
    confirmed_at := none
    signature := none
    requires_multisig := false
    signers_required := []
    signatures_collected := [] }

/-- Scenario input: a service holding only `pendingIntent`. -/
def pendingIntentState : ServiceState :=
  { multisig_config := { threshold_usd := 0, required_signers := [] }
    payment_intents := [(("i1"), pendingIntent)]
    escrow_payments := []
    payment_history := []
    balance_notifications := [] }

/-- Scenario input: a CONFIRMED intent that requires multisig. -/
def multisigIntent : PaymentIntent :=
  { intent_id := ("i1")
    from_wallet := ("A")
    to_wallet := ("B")
    amount := 5000000000
    description := ("d")
    status := .confirmed
    created_at := 0
    executed_at := none
    confirmed_at := none
    signature := none
    requires_multisig := true
    signers_required := [("s1"), ("s2"), ("s3")]
    signatures_collected := [(("s1"), ("x"))] }

/-- Scenario input: a FUNDED escrow linked to `multisigIntent`, carrying
one collected signer entry. -/
def multisigEscrow : EscrowPayment :=
  { escrow_id := ("e1")
    payment_intent_id := ("i1")
    amount := 5000000000
    from_wallet := ("A")
    to_wallet := ("B")
    status := .funded
    funded_at := some 0
    released_at := none
    refunded_at := none
    signatures := [(("s1"), ("x"))]
    created_at := 0 }

/-- Scenario input: a service holding `multisigIntent` and
`multisigEscrow`. -/
def multisigScenarioState : ServiceState :=
  { multisig_config := { threshold_usd := 0, required_signers := [] }
    payment_intents := [(("i1"), multisigIntent)]
    escrow_payments := [(("e1"), multisigEscrow)]
    payment_history := []
    balance_notifications := [] }

/-- Scenario input: a registered notification with auto-reload enabled. -/
def reloadNotification : BalanceNotification :=
  { wallet_address := ("w1")
    threshold_usd := 10
    auto_reload_enabled := true }

/-- Scenario input: a service watching wallet `"w1"`. -/
def reloadService : ServiceState :=
  { multisig_config := { threshold_usd := 0, required_signers := [] }
    payment_intents := []
    escrow_payments := []
    payment_history := []
    balance_notifications := [(("w1"), reloadNotification)] }

/-- Scenario input: a review already in RESOLVED status. -/
def resolvedReview : Review :=
  { review_id := ("r1")
    provider := ("P")
    renter := ("R")
    skill_id := ("sk")
    rating := 5
    completed_on_time := true
    output_quality := ("good")
    comment := ("c")
    created_at := 0
    status := .resolved }

/-- Scenario input: a review service holding `resolvedReview`. -/
def resolvedReviewState : ReviewState :=
  { reviews := [(("r1"), resolvedReview)]
    disputes := []
    votes := []
    review_ids_by_agent := [(("P"), [("r1")])] }

/-- Scenario input: a review service holding one review (provider `"P"`)
whose provider index is still empty. -/
def singleReviewState : ReviewState :=
  { reviews := [(("r1"), resolvedReview)]
    disputes := []
    votes := []
    review_ids_by_agent := [] }

/-- Scenario input: a legacy escrow whose principal 281474976710701
(= 2^48 + 45) makes binary64 rounding of `amount * 0.99` land above the
exact product's floor. -/
def hugeEscrow : Escrow :=
  { escrow_id := ("e1")
    terms :=
      { renter := ("rn")
        provider := ("pv")
        skill_id := ("sk")
        amount := 281474976710701
        duration_hours := 24
        deliverable_hash := ("dh")
        created_at := 0
        expires_at := 0 }
    created_at := 0 }

/-- Scenario input: the registry holding `hugeEscrow`. -/
def hugeEscrowClient : EscrowClientState :=
  ⟨[(("e1"), hugeEscrow)]⟩

/-! ## Library lemmas about the dict model -/

theorem dictGet_dictSet {α : Type} (m : List (String × α)) (k j : String)
    (v : α) :
    dictGet (dictSet m k v) j = if k = j then some v else dictGet m j := by
  induction m with
  | nil =>
    by_cases h : k = j <;> simp [dictGet, dictSet, h]
  | cons hd tl ih =>
    obtain ⟨k', v'⟩ := hd
    by_cases h1 : k' = k
    · subst h1
      by_cases h2 : k' = j <;> simp [dictGet, dictSet, h2]
    · by_cases h2 : k' = j
      · have h3 : ¬ k = j := fun h => h1 (h2.trans h.symm)
        have h4 : ¬ j = k := fun h => h3 h.symm
        simp [dictGet, dictSet, h1, h2, h3, h4]
      · simp [dictGet, dictSet, h1, h2, ih]

theorem dictGet_dictSet_self {α : Type} (m : List (String × α)) (k : String)
    (v : α) : dictGet (dictSet m k v) k = some v := by
  simp [dictGet_dictSet]

theorem dictGet_dictSet_ne {α : Type} (m : List (String × α)) {k j : String}
    (v : α) (h : k ≠ j) : dictGet (dictSet m k v) j = dictGet m j := by
  simp [dictGet_dictSet, h]

theorem dictSet_dictSet {α : Type} (m : List (String × α)) (k : String)
    (v w : α) : dictSet (dictSet m k v) k w = dictSet m k w := by
  induction m with
  | nil => simp [dictSet]
  | cons hd tl ih =>
    obtain ⟨k', v'⟩ := hd
    by_cases h : k' = k <;> simp [dictSet, h, ih]

/-! ## Claim C4: amount validation in `create_payment_intent` -/

/-- C4 counterexample: the claim says every amount `a < 1000` fails with
the BelowMinimum error, but at `a = 0` (which is `< 1000`)
`create_payment_intent` fails with the InvalidAmount error
`"Amount must be positive"` instead — the `amount <= 0` guard fires
first. -/
theorem C4_counterexample :
    (create_payment_intent noMultisigService 0 ("A") ("B") ("d") ("i1")
        0).1 = .error ("Amount must be positive") ∧
    ("Amount must be positive") ≠ ("Amount below minimum (1,000 microUSDC)")
    := by
  constructor
  · rfl
  · decide

/-- C4 (amended): for `a ≤ 0` creation fails with InvalidAmount
(`"Amount must be positive"`); for `0 < a < 1000` it fails with
BelowMinimum (`"Amount below minimum (1,000 microUSDC)"`); in both
failure cases the state is unchanged (no intent stored); for `a ≥ 1000`
it succeeds and the stored intent has status PENDING. -/
theorem C4_create_intent_amount_policy (st : ServiceState) (a : Int)
    (f t d i : String) (now : Nat) :
    (a ≤ 0 →
      create_payment_intent st a f t d i now =
        (.error ("Amount must be positive"), st)) ∧
    (0 < a → a < 1000 →
      create_payment_intent st a f t d i now =
        (.error ("Amount below minimum (1,000 microUSDC)"), st)) ∧
    (1000 ≤ a →
      ∃ p : PaymentIntent,
        (create_payment_intent st a f t d i now).1 = .ok p ∧
        p.status = .pending ∧ p.amount = a ∧
        dictGet (create_payment_intent st a f t d i now).2.payment_intents i
          = some p) := by
  refine ⟨fun h => ?_, fun h0 h1 => ?_, fun h => ?_⟩
  · simp [create_payment_intent, h]
  · have h2 : ¬ a ≤ 0 := not_le.mpr h0
    simp [create_payment_intent, h2, h1]
  · have h2 : ¬ a ≤ 0 := by omega
    have h3 : ¬ a < 1000 := by omega
    simp only [create_payment_intent, if_neg h2, if_neg h3]
    exact ⟨_, rfl, rfl, rfl, dictGet_dictSet_self _ _ _⟩

/-- C4 witness: the three regimes at `a = 0`, `a = 500`, `a = 1500` on a
concrete service. -/
theorem C4_witness :
    (create_payment_intent noMultisigService 0 ("A") ("B") ("d") ("i1") 0 =
      (.error ("Amount must be positive"), noMultisigService)) ∧
    (create_payment_intent noMultisigService 500 ("A") ("B") ("d") ("i1") 0 =
      (.error ("Amount below minimum (1,000 microUSDC)"), noMultisigService))
    ∧
    (∃ p : PaymentIntent,
      (create_payment_intent noMultisigService 1500 ("A") ("B") ("d") ("i1")
          0).1 = .ok p ∧
      p.status = .pending ∧ p.amount = 1500 ∧
      dictGet (create_payment_intent noMultisigService 1500 ("A") ("B")
          ("d") ("i1") 0).2.payment_intents ("i1") = some p) :=
  ⟨(C4_create_intent_amount_policy noMultisigService 0 ("A") ("B") ("d")
      ("i1") 0).1 (by decide),
   (C4_create_intent_amount_policy noMultisigService 500 ("A") ("B") ("d")
      ("i1") 0).2.1 (by decide) (by decide),
   (C4_create_intent_amount_policy noMultisigService 1500 ("A") ("B") ("d")
      ("i1") 0).2.2 (by decide)⟩

/-! ## Claim C8: legacy escrow release/refund amounts -/

/-- Helper: `roundHalfEven` maps anything strictly within 1/2 of an
integer to that integer. -/
theorem roundHalfEven_near (y : Rat) (m : Int)
    (h1 : (m : Rat) - 1/2 < y) (h2 : y < (m : Rat) + 1/2) :
    roundHalfEven y = m := by
  rcases le_or_lt (m : Rat) y with hc | hc
  · have hf : ⌊y⌋ = m := by
      rw [Int.floor_eq_iff]
      exact ⟨hc, by push_cast; linarith⟩
    have hcond : 2 * (y - ((m : Int) : Rat)) < 1 := by push_cast; linarith
    simp only [roundHalfEven, hf]
    rw [if_pos hcond]
  · have hf : ⌊y⌋ = m - 1 := by
      rw [Int.floor_eq_iff]
      exact ⟨by push_cast; linarith, by push_cast; linarith⟩
    have hA : ¬ (2 * (y - ((m - 1 : Int) : Rat)) < 1) :=
      not_lt.mpr (by push_cast; linarith)
    have hB : 1 < 2 * (y - ((m - 1 : Int) : Rat)) := by push_cast; linarith
    simp only [roundHalfEven, hf]
    rw [if_neg hA, if_pos hB]
    omega

/-- Helper: `roundHalfEven` moves its argument by at most 1/2. -/
theorem roundHalfEven_bounds (y : Rat) :
    y - 1/2 ≤ ((roundHalfEven y : Int) : Rat) ∧
    ((roundHalfEven y : Int) : Rat) ≤ y + 1/2 := by
  have hfl := Int.floor_le y
  have hfu := Int.lt_floor_add_one y
  simp only [roundHalfEven]
  split
  · rename_i hc
    constructor <;> push_cast <;> push_cast at hc <;> linarith
  · split
    · rename_i hc1 hc2
      constructor <;> push_cast <;> push_cast at hc1 hc2 <;> linarith
    · rename_i hc1 hc2
      split
      · constructor <;> push_cast <;> push_cast at hc1 hc2 <;> linarith
      · constructor <;> push_cast <;> push_cast at hc1 hc2 <;> linarith

/-- Helper: `ratLog2` computes the floor of the base-2 logarithm. -/
theorem ratLog2_spec (q : Rat) (hq : 0 < q) :
    (2 : Rat) ^ ratLog2 q ≤ q ∧ q < (2 : Rat) ^ (ratLog2 q + 1) := by
  have hnum : 0 < q.num := Rat.num_pos.mpr hq
  have hden : 0 < q.den := q.den_pos
  have hn0 : q.num.toNat ≠ 0 := by omega
  have hd0 : q.den ≠ 0 := by omega
  have hqd : q * (q.den : Rat) = (q.num : Rat) := Rat.mul_den_eq_num q
  have hnn : (q.num : Rat) = (q.num.toNat : Rat) := by
    exact_mod_cast
      (congrArg (Int.cast : Int → Rat)
        (Int.toNat_of_nonneg (le_of_lt hnum))).symm
  have hdpos : (0 : Rat) < (q.den : Rat) := by exact_mod_cast hden
  simp only [ratLog2]
  set Ln := Nat.log2 q.num.toNat with hLn
  set Ld := Nat.log2 q.den with hLd
  have hF1 : 2 ^ Ln ≤ q.num.toNat := by
    rw [hLn]
    exact Nat.log2_self_le hn0
  have hF2 : q.num.toNat < 2 ^ (Ln + 1) := by
    rw [hLn]
    exact Nat.lt_log2_self
  have hF3 : 2 ^ Ld ≤ q.den := by
    rw [hLd]
    exact Nat.log2_self_le hd0
  have hF4 : q.den < 2 ^ (Ld + 1) := by
    rw [hLd]
    exact Nat.lt_log2_self
  have hdc1 : (2 : Rat) ^ ((Ld : Int)) ≤ (q.den : Rat) := by
    rw [zpow_natCast]
    exact_mod_cast hF3
  have hdc2 : (q.den : Rat) < (2 : Rat) ^ ((Ld : Int) + 1) := by
    rw [show ((Ld : Int) + 1) = ((Ld + 1 : Nat) : Int) by push_cast; ring,
      zpow_natCast]
    exact_mod_cast hF4
  have hnc1 : (2 : Rat) ^ ((Ln : Int)) ≤ (q.num : Rat) := by
    rw [hnn, zpow_natCast]
    exact_mod_cast hF1
  have hnc2 : (q.num : Rat) < (2 : Rat) ^ ((Ln : Int) + 1) := by
    rw [hnn, show ((Ln : Int) + 1) = ((Ln + 1 : Nat) : Int) by
      push_cast; ring, zpow_natCast]
    exact_mod_cast hF2
  have hup : q < (2 : Rat) ^ ((Ln : Int) - Ld + 1) := by
    have hp : (0 : Rat) < (2 : Rat) ^ ((Ld : Int)) := zpow_pos (by norm_num) _
    rw [show ((Ln : Int) - Ld + 1) = ((Ln : Int) + 1) - Ld by ring,
      zpow_sub₀ (by norm_num : (2 : Rat) ≠ 0), lt_div_iff₀ hp]
    calc q * (2 : Rat) ^ ((Ld : Int)) ≤ (q.num : Rat) := by
          calc q * (2 : Rat) ^ ((Ld : Int)) ≤ q * (q.den : Rat) :=
                mul_le_mul_of_nonneg_left hdc1 (le_of_lt hq)
            _ = (q.num : Rat) := hqd
      _ < (2 : Rat) ^ ((Ln : Int) + 1) := hnc2
  have hlo : (2 : Rat) ^ ((Ln : Int) - Ld - 1) < q := by
    have hp : (0 : Rat) < (2 : Rat) ^ ((Ld : Int) + 1) :=
      zpow_pos (by norm_num) _
    rw [show ((Ln : Int) - Ld - 1) = ((Ln : Int)) - ((Ld : Int) + 1) by ring,
      zpow_sub₀ (by norm_num : (2 : Rat) ≠ 0), div_lt_iff₀ hp]
    calc (2 : Rat) ^ ((Ln : Int)) ≤ (q.num : Rat) := hnc1
      _ = q * (q.den : Rat) := hqd.symm
      _ < q * (2 : Rat) ^ ((Ld : Int) + 1) :=
          mul_lt_mul_of_pos_left hdc2 hq
  by_cases hc : (2 : Rat) ^ ((Ln : Int) - (Ld : Int)) ≤ q
  · rw [if_pos hc]
    exact ⟨hc, hup⟩
  · rw [if_neg hc]
    refine ⟨le_of_lt hlo, ?_⟩
    have he : (Ln : Int) - Ld - 1 + 1 = (Ln : Int) - Ld := by ring
    rw [he]
    exact not_le.mp hc

/-- Helper: the binade characterizes `ratLog2` uniquely. -/
theorem ratLog2_unique (q : Rat) (k : Int)
    (h1 : (2 : Rat) ^ k ≤ q) (h2 : q < (2 : Rat) ^ (k + 1)) :
    ratLog2 q = k := by
  have hq : 0 < q := lt_of_lt_of_le (zpow_pos (by norm_num) k) h1
  obtain ⟨g1, g2⟩ := ratLog2_spec q hq
  have hA : ratLog2 q < k + 1 := by
    rw [← zpow_lt_zpow_iff_right₀ (show (1 : Rat) < 2 by norm_num)]
    exact lt_of_le_of_lt g1 h2
  have hB : k < ratLog2 q + 1 := by
    rw [← zpow_lt_zpow_iff_right₀ (show (1 : Rat) < 2 by norm_num)]
    exact lt_of_le_of_lt h1 g2
  omega

/-- Helper: integers below 2^53 are binary64-representable, so
`roundB64` is the identity on them. -/
theorem roundB64_int_exact (a : Int) (h1 : 0 < a)
    (h2 : (a : Rat) < 2 ^ (53 : Nat)) :
    roundB64 (a : Rat) = (a : Rat) := by
  have hq : (0 : Rat) < (a : Rat) := by exact_mod_cast h1
  rw [← zpow_natCast (2 : Rat) 53] at h2
  obtain ⟨g1, g2⟩ := ratLog2_spec (a : Rat) hq
  have hone : (2 : Rat) ^ ((0 : Nat) : Int) ≤ (a : Rat) := by
    rw [zpow_natCast]
    norm_num
    exact_mod_cast h1
  have hk0 : 0 ≤ ratLog2 (a : Rat) := by
    have hlt : (2 : Rat) ^ ((0 : Nat) : Int)
        < (2 : Rat) ^ (ratLog2 (a : Rat) + 1) := lt_of_le_of_lt hone g2
    have := (zpow_lt_zpow_iff_right₀
      (show (1 : Rat) < 2 by norm_num)).mp hlt
    omega
  have hk52 : ratLog2 (a : Rat) ≤ 52 := by
    have hlt : (2 : Rat) ^ (ratLog2 (a : Rat))
        < (2 : Rat) ^ (((53 : Nat) : Int)) := lt_of_le_of_lt g1 h2
    have := (zpow_lt_zpow_iff_right₀
      (show (1 : Rat) < 2 by norm_num)).mp hlt
    omega
  simp only [roundB64]
  rw [if_neg (by exact_mod_cast (ne_of_gt h1)),
    if_neg (not_lt.mpr (le_of_lt hq))]
  simp only [roundB64Mag]
  set k := ratLog2 (a : Rat) with hk
  set t : Nat := (52 - k).toNat with ht
  have htk : (t : Int) = 52 - k := by omega
  have hy : (a : Rat) / (2 : Rat) ^ (k - 52) = ((a * 2 ^ t : Int) : Rat) := by
    have e1 : ((a * 2 ^ t : Int) : Rat) = (a : Rat) * (2 : Rat) ^ ((t : Int))
      := by
      push_cast [zpow_natCast]
      ring
    rw [e1, div_eq_mul_inv, ← zpow_neg, neg_sub, htk]
  rw [hy, roundHalfEven_near _ (a * 2 ^ t) (by push_cast; linarith)
    (by push_cast; linarith)]
  have e2 : ((a * 2 ^ t : Int) : Rat) = (a : Rat) * (2 : Rat) ^ ((t : Int))
    := by
    push_cast [zpow_natCast]
    ring
  rw [e2, mul_assoc, ← zpow_add₀ (by norm_num : (2 : Rat) ≠ 0)]
  have e3 : (t : Int) + (k - 52) = 0 := by omega
  rw [e3, zpow_zero, mul_one]

/-- Helper: a rational strictly within half an ulp of a grid point of
its own binade rounds to that grid point. -/
theorem roundB64_near_grid (q : Rat) (k m : Int)
    (hk1 : (2 : Rat) ^ k ≤ q) (hk2 : q < (2 : Rat) ^ (k + 1))
    (hlo : (m : Rat) * (2 : Rat) ^ (k - 52) - (2 : Rat) ^ (k - 53) < q)
    (hhi : q < (m : Rat) * (2 : Rat) ^ (k - 52) + (2 : Rat) ^ (k - 53)) :
    roundB64 q = (m : Rat) * (2 : Rat) ^ (k - 52) := by
  have hq : 0 < q := lt_of_lt_of_le (zpow_pos (by norm_num) k) hk1
  have hs : (0 : Rat) < (2 : Rat) ^ (k - 52) := zpow_pos (by norm_num) _
  have hhalf : (2 : Rat) ^ (k - 53) * 2 = (2 : Rat) ^ (k - 52) := by
    rw [show k - 52 = k - 53 + 1 by ring,
      zpow_add_one₀ (by norm_num : (2 : Rat) ≠ 0)]
  simp only [roundB64]
  rw [if_neg (ne_of_gt hq), if_neg (not_lt.mpr (le_of_lt hq))]
  simp only [roundB64Mag]
  rw [ratLog2_unique q k hk1 hk2]
  rw [roundHalfEven_near (q / (2 : Rat) ^ (k - 52)) m ?lo ?hi]
  case lo =>
    rw [lt_div_iff₀ hs]
    nlinarith [hlo, hs, hhalf]
  case hi =>
    rw [div_lt_iff₀ hs]
    nlinarith [hhi, hs, hhalf]

/-- Helper: `roundB64` moves a value of binade k by at most half an ulp,
`2^(k-53)`. -/
theorem roundB64_err (q : Rat) (k : Int)
    (hk1 : (2 : Rat) ^ k ≤ q) (hk2 : q < (2 : Rat) ^ (k + 1)) :
    q - (2 : Rat) ^ (k - 53) ≤ roundB64 q ∧
    roundB64 q ≤ q + (2 : Rat) ^ (k - 53) := by
  have hq : 0 < q := lt_of_lt_of_le (zpow_pos (by norm_num) k) hk1
  have hs : (0 : Rat) < (2 : Rat) ^ (k - 52) := zpow_pos (by norm_num) _
  have hhalf : (2 : Rat) ^ (k - 53) * 2 = (2 : Rat) ^ (k - 52) := by
    rw [show k - 52 = k - 53 + 1 by ring,
      zpow_add_one₀ (by norm_num : (2 : Rat) ≠ 0)]
  simp only [roundB64]
  rw [if_neg (ne_of_gt hq), if_neg (not_lt.mpr (le_of_lt hq))]
  simp only [roundB64Mag]
  rw [ratLog2_unique q k hk1 hk2]
  obtain ⟨b1, b2⟩ := roundHalfEven_bounds (q / (2 : Rat) ^ (k - 52))
  constructor
  · have hmul := mul_le_mul_of_nonneg_right b1 (le_of_lt hs)
    rw [sub_mul, div_mul_cancel₀ _ (ne_of_gt hs)] at hmul
    linarith [hmul, hhalf]
  · have hmul := mul_le_mul_of_nonneg_right b2 (le_of_lt hs)
    rw [add_mul, div_mul_cancel₀ _ (ne_of_gt hs)] at hmul
    linarith [hmul, hhalf]

/-- Helper: below 2^45 micro-units the binary64 computation
`int(a * 0.99)` agrees exactly with `⌊a·99/100⌋`. -/
theorem refund_float_exact (a : Int) (h0 : 0 ≤ a) (h1 : a ≤ 2 ^ 45) :
    ratTrunc (roundB64 (roundB64 (a : Rat) * float99))
      = ⌊(a : Rat) * (99 / 100)⌋ := by
  rcases eq_or_lt_of_le h0 with h00 | hpos
  · rw [← h00]
    norm_num [roundB64, ratTrunc]
  have hfla : roundB64 (a : Rat) = (a : Rat) := by
    apply roundB64_int_exact a hpos
    have hcast : (a : Rat) ≤ ((2 ^ 45 : Int) : Rat) := by exact_mod_cast h1
    push_cast at hcast
    norm_num at hcast ⊢
    linarith
  rw [hfla]
  have hq0 : 0 < (a : Rat) * float99 := by
    apply mul_pos
    · exact_mod_cast hpos
    · norm_num [float99]
  obtain ⟨g1, g2⟩ := ratLog2_spec ((a : Rat) * float99) hq0
  set k := ratLog2 ((a : Rat) * float99) with hkdef
  have hk44 : k ≤ 44 := by
    have hqlt : (a : Rat) * float99 < (2 : Rat) ^ (((45 : Nat)) : Int) := by
      rw [zpow_natCast]
      have hcast : (a : Rat) ≤ (2 : Rat) ^ (45 : Nat) := by
        have : (a : Rat) ≤ ((2 ^ 45 : Int) : Rat) := by exact_mod_cast h1
        push_cast at this
        exact this
      have hp : (0 : Rat) < (2 : Rat) ^ (45 : Nat) := by positivity
      have hf0 : (0 : Rat) < float99 := by norm_num [float99]
      have hf1 : float99 < 1 := by norm_num [float99]
      calc (a : Rat) * float99 ≤ (2 : Rat) ^ (45 : Nat) * float99 :=
            mul_le_mul_of_nonneg_right hcast (le_of_lt hf0)
        _ < (2 : Rat) ^ (45 : Nat) * 1 := mul_lt_mul_of_pos_left hf1 hp
        _ = (2 : Rat) ^ (45 : Nat) := mul_one _
    have hlt : (2 : Rat) ^ k < (2 : Rat) ^ (((45 : Nat)) : Int) :=
      lt_of_le_of_lt g1 hqlt
    have := (zpow_lt_zpow_iff_right₀
      (show (1 : Rat) < 2 by norm_num)).mp hlt
    omega
  have hepsb : (a : Rat) * (99 / 100 - float99) < (2 : Rat) ^ (k - 53) := by
    have hcoef : (99 / 100 - float99) * (2 : Rat) ^ (((54 : Nat)) : Int)
        ≤ float99 := by
      rw [zpow_natCast]
      norm_num [float99]
    have hstep : (a : Rat) * (99 / 100 - float99)
        * (2 : Rat) ^ (((54 : Nat)) : Int) ≤ (a : Rat) * float99 := by
      calc (a : Rat) * (99 / 100 - float99) * (2 : Rat) ^ (((54 : Nat)) : Int)
          = (a : Rat) * ((99 / 100 - float99)
            * (2 : Rat) ^ (((54 : Nat)) : Int)) := by ring
        _ ≤ (a : Rat) * float99 :=
            mul_le_mul_of_nonneg_left hcoef (by exact_mod_cast h0)
    have hq2 : (a : Rat) * float99
        < (2 : Rat) ^ (k - 53) * (2 : Rat) ^ (((54 : Nat)) : Int) := by
      rw [← zpow_add₀ (by norm_num : (2 : Rat) ≠ 0)]
      have he : k - 53 + ((54 : Nat) : Int) = k + 1 := by push_cast; ring
      rw [he]
      exact g2
    have hp54 : (0 : Rat) < (2 : Rat) ^ (((54 : Nat)) : Int) :=
      zpow_pos (by norm_num) _
    have hchain := lt_of_le_of_lt hstep hq2
    exact lt_of_mul_lt_mul_right hchain (le_of_lt hp54)
  have heps0 : 0 ≤ (a : Rat) * (99 / 100 - float99) :=
    mul_nonneg (by exact_mod_cast h0) (by norm_num [float99])
  have hsplit : (a : Rat) * (99 / 100)
      = (a : Rat) * float99 + (a : Rat) * (99 / 100 - float99) := by ring
  have hDR : 100 * ((99 * a).ediv 100) + (99 * a).emod 100 = 99 * a :=
    Int.ediv_add_emod (99 * a) 100
  have hR0 : 0 ≤ (99 * a).emod 100 := Int.emod_nonneg _ (by norm_num)
  have hR100 : (99 * a).emod 100 < 100 := Int.emod_lt_of_pos _ (by norm_num)
  have hD0 : 0 ≤ (99 * a).ediv 100 :=
    Int.ediv_nonneg (by linarith) (by norm_num)
  set D := (99 * a).ediv 100 with hDdef
  set R := (99 * a).emod 100 with hRdef
  have hx : (a : Rat) * (99 / 100) = (D : Rat) + (R : Rat) / 100 := by
    have hcast : (100 : Rat) * (D : Rat) + (R : Rat) = 99 * (a : Rat) := by
      exact_mod_cast hDR
    field_simp
    linarith
  have hNfloor : ⌊(a : Rat) * (99 / 100)⌋ = D := by
    rw [hx, Int.floor_eq_iff]
    constructor
    · have : (0 : Rat) ≤ (R : Rat) / 100 := by positivity
      linarith
    · have : (R : Rat) / 100 < 1 := by
        rw [div_lt_one (by norm_num)]
        exact_mod_cast hR100
      linarith
  rw [hNfloor]
  have hsmall : (2 : Rat) ^ (k - 53) ≤ 1 / 512 := by
    calc (2 : Rat) ^ (k - 53) ≤ (2 : Rat) ^ (-9 : Int) :=
          zpow_le_zpow_right₀ (by norm_num) (by omega)
      _ = 1 / 512 := by norm_num
  rcases eq_or_lt_of_le hR0 with hRz | hRpos
  · have hxD : (a : Rat) * (99 / 100) = (D : Rat) := by
      rw [hx, ← hRz]
      push_cast
      ring
    set t : Nat := (52 - k).toNat with ht
    have htk : (t : Int) = 52 - k := by omega
    have hmval : ((D * 2 ^ t : Int) : Rat) * (2 : Rat) ^ (k - 52)
        = (D : Rat) := by
      have e1 : ((D * 2 ^ t : Int) : Rat)
          = (D : Rat) * (2 : Rat) ^ ((t : Int)) := by
        push_cast [zpow_natCast]
        ring
      rw [e1, mul_assoc, ← zpow_add₀ (by norm_num : (2 : Rat) ≠ 0)]
      have e3 : (t : Int) + (k - 52) = 0 := by omega
      rw [e3, zpow_zero, mul_one]
    have hqD : roundB64 ((a : Rat) * float99) = (D : Rat) := by
      have hgrid := roundB64_near_grid ((a : Rat) * float99) k (D * 2 ^ t)
        g1 g2 ?lo ?hi
      · rw [hgrid, hmval]
      case lo =>
        rw [hmval]
        have hqval : (a : Rat) * float99
            = (D : Rat) - (a : Rat) * (99 / 100 - float99) := by
          rw [← hxD]
          ring
        rw [hqval]
        linarith
      case hi =>
        rw [hmval]
        have hqval : (a : Rat) * float99
            = (D : Rat) - (a : Rat) * (99 / 100 - float99) := by
          rw [← hxD]
          ring
        have hp : (0 : Rat) < (2 : Rat) ^ (k - 53) := zpow_pos (by norm_num) _
        rw [hqval]
        linarith
    rw [hqD]
    simp only [ratTrunc]
    rw [if_pos (by exact_mod_cast hD0)]
    exact Int.floor_intCast D
  · obtain ⟨e1, e2⟩ := roundB64_err ((a : Rat) * float99) k g1 g2
    have hR1 : (1 : Rat) ≤ (R : Rat) := by exact_mod_cast hRpos
    have hR99 : (R : Rat) ≤ 99 := by exact_mod_cast (by omega : R ≤ 99)
    have hqval : (a : Rat) * float99 = (D : Rat) + (R : Rat) / 100
        - (a : Rat) * (99 / 100 - float99) := by
      rw [← hx]
      ring
    have hvlo : (D : Rat) ≤ roundB64 ((a : Rat) * float99) := by
      nth_rewrite 1 [hqval] at e1
      linarith
    have hvhi : roundB64 ((a : Rat) * float99) < (D : Rat) + 1 := by
      nth_rewrite 2 [hqval] at e2
      linarith
    have hv0 : (0 : Rat) ≤ roundB64 ((a : Rat) * float99) :=
      le_trans (by exact_mod_cast hD0) hvlo
    simp only [ratTrunc]
    rw [if_pos hv0, Int.floor_eq_iff]
    exact ⟨hvlo, by linarith⟩

/-- C8 counterexample: at principal 281474976710701 the binary64
computation `int(amount * 0.99)` returns 278660226943594 — the product
`281474976710701 · fl(0.99)` lies within half an ulp (1/64) of the
representable 278660226943594.0 and rounds up — while
`⌊amount · 99/100⌋ = 278660226943593`, so the refund is not "exactly
floor(amount*0.99)" for every non-negative principal. -/
theorem C8_counterexample :
    refund_amount_for_escrow hugeEscrowClient ("e1") = 278660226943594 ∧
    ⌊((281474976710701 : Int) : Rat) * (99 / 100)⌋ = 278660226943593 ∧
    (278660226943594 : Int) ≠ 278660226943593 := by
  refine ⟨?_, ?_, by decide⟩
  · have hget : get_escrow hugeEscrowClient ("e1") = some hugeEscrow := rfl
    simp only [refund_amount_for_escrow, hget]
    show ratTrunc (roundB64 (roundB64 ((281474976710701 : Int) : Rat)
      * float99)) = 278660226943594
    have h1 : roundB64 ((281474976710701 : Int) : Rat)
        = ((281474976710701 : Int) : Rat) :=
      roundB64_int_exact _ (by norm_num) (by push_cast; norm_num)
    rw [h1]
    have h2 : roundB64 (((281474976710701 : Int) : Rat) * float99)
        = ((8917127262195008 : Int) : Rat) * (2 : Rat) ^ ((47 : Int) - 52)
        := by
      apply roundB64_near_grid _ 47 8917127262195008
      · rw [show (47 : Int) = ((47 : Nat) : Int) from rfl, zpow_natCast]
        norm_num [float99]
      · rw [show ((47 : Int) + 1) = ((48 : Nat) : Int) from rfl,
          zpow_natCast]
        norm_num [float99]
      · norm_num [float99]
      · norm_num [float99]
    rw [h2]
    have h3 : ((8917127262195008 : Int) : Rat)
        * (2 : Rat) ^ ((47 : Int) - 52) = ((278660226943594 : Int) : Rat)
        := by
      norm_num
    rw [h3]
    simp only [ratTrunc]
    rw [if_pos (by norm_num), Int.floor_intCast]
  · rw [show ((281474976710701 : Int) : Rat) * (99 / 100)
      = ((281474976710701 * 99 : Int) : Rat) / (((100 : Nat)) : Rat) by
        push_cast; ring]
    rw [Rat.floor_intCast_div_natCast]
    norm_num

/-- C8 (amended): for an existing legacy escrow,
`release_amount_for_escrow` returns the full principal, and — for
non-negative principals up to 2^45 micro-units (≈ 3.5·10^13, about
$35M, far beyond any realistic escrow) — `refund_amount_for_escrow`
returns exactly `⌊a · 99/100⌋` = `a * 99 / 100`; for larger principals
binary64 rounding can move the result off the exact floor (see the
counterexample). -/
theorem C8_refund_release_amounts (c : EscrowClientState) (eid : String)
    (e : Escrow) (h : get_escrow c eid = some e)
    (hpos : 0 ≤ e.terms.amount) (hub : e.terms.amount ≤ 2 ^ 45) :
    refund_amount_for_escrow c eid = ⌊(e.terms.amount : Rat) * (99 / 100)⌋
    ∧
    refund_amount_for_escrow c eid = e.terms.amount * 99 / 100 ∧
    release_amount_for_escrow c eid = e.terms.amount := by
  have hfloor : refund_amount_for_escrow c eid
      = ⌊(e.terms.amount : Rat) * (99 / 100)⌋ := by
    simp only [refund_amount_for_escrow, h]
    exact refund_float_exact e.terms.amount hpos hub
  refine ⟨hfloor, ?_, ?_⟩
  · rw [hfloor]
    have key : ((e.terms.amount : Rat) * (99 / 100))
        = ((e.terms.amount * 99 : Int) : Rat) / ((100 : Nat) : Rat) := by
      push_cast
      ring
    rw [key, Rat.floor_intCast_div_natCast]
    norm_num
  · simp [release_amount_for_escrow, h]

/-- C8 witness: the sample escrow with principal 12345 refunds
`12345 * 99 / 100 = 12221` and releases 12345. -/
theorem C8_witness :
    get_escrow sampleEscrowClient ("e1") = some sampleEscrow ∧
    (0 : Int) ≤ sampleEscrow.terms.amount ∧
    sampleEscrow.terms.amount ≤ 2 ^ 45 ∧
    refund_amount_for_escrow sampleEscrowClient ("e1")
      = sampleEscrow.terms.amount * 99 / 100 ∧
    release_amount_for_escrow sampleEscrowClient ("e1")
      = sampleEscrow.terms.amount :=
  ⟨by decide, by decide, by decide,
   (C8_refund_release_amounts sampleEscrowClient ("e1") sampleEscrow
      (by decide) (by decide) (by decide)).2.1,
   (C8_refund_release_amounts sampleEscrowClient ("e1") sampleEscrow
      (by decide) (by decide) (by decide)).2.2⟩

/-! ## Claim C3: adapter exception during `execute_payment_intent` -/

/-- Helper: the multisig gate in `execute_payment_intent` does not fire
when the intent either needs no multisig or has a nonempty signature
collection. -/
theorem multisig_gate_off (p : PaymentIntent)
    (hms : p.requires_multisig = true → p.signatures_collected ≠ []) :
    (p.requires_multisig && p.signatures_collected.isEmpty) = false := by
  cases hreq : p.requires_multisig
  · simp
  · have hne := hms hreq
    cases hl : p.signatures_collected with
    | nil => exact absurd hl hne
    | cons x xs => simp [List.isEmpty]

/-- C3: for an intent in an executable state (PENDING or CONFIRMED) whose
multisig gate does not block, an adapter exception `e` during
`execute_payment_intent` yields exactly the failure result
(`success=false`, status FAILED, error `e`), sets the stored intent's
status to FAILED, and leaves everything else (including the payment
history) unchanged; the operation is a total function, so the exception
never propagates. -/
theorem C3_execute_adapter_exception (st : ServiceState) (iid : String)
    (p : PaymentIntent) (e pid : String) (now : Nat)
    (h : dictGet st.payment_intents iid = some p)
    (hs : p.status = .pending ∨ p.status = .confirmed)
    (hms : p.requires_multisig = true → p.signatures_collected ≠ []) :
    execute_payment_intent st iid (.error e) pid now =
      ({ success := false
         payment_intent_id := some iid
         signature := none
         status := some .failed
         error := some e
         explorer_url := none },
       { st with
         payment_intents := dictSet st.payment_intents iid
           { p with status := .failed } }) := by
  have hb := multisig_gate_off p hms
  simp [execute_payment_intent, h, hs, hb]

/-- C3 witness: a concrete pending intent, adapter raising `"rpc boom"`. -/
theorem C3_witness :
    dictGet pendingIntentState.payment_intents ("i1") = some pendingIntent ∧
    pendingIntent.status = .pending ∧
    execute_payment_intent pendingIntentState ("i1") (.error ("rpc boom"))
        ("p1") 7 =
      ({ success := false
         payment_intent_id := some ("i1")
         signature := none
         status := some .failed
         error := some ("rpc boom")
         explorer_url := none },
       { pendingIntentState with
         payment_intents := dictSet pendingIntentState.payment_intents
           ("i1") { pendingIntent with status := .failed } }) :=
  ⟨by decide, by decide,
   C3_execute_adapter_exception pendingIntentState ("i1") pendingIntent
     ("rpc boom") ("p1") 7 (by decide) (Or.inl (by decide))
     (fun hreq => absurd hreq (by decide))⟩

/-! ## Claim C2: the 2-signature release gate on multisig escrows -/

/-- Helper: recording the optional release signature never changes the
escrow's status. -/
theorem applyReleaseSignature_status (e : EscrowPayment) (a : String)
    (s : Option String) : (applyReleaseSignature e a s).status = e.status
    := by
  cases s with
  | none => rfl
  | some v =>
    by_cases hv : v = "" <;> simp [applyReleaseSignature, hv]

/-- C2: on a FUNDED escrow whose linked intent requires multisig, with
fewer than 2 entries in the signature map (after the optional signature
argument is recorded) `release_escrow_payment` fails with the
MultisigIncomplete error naming exactly `2 - (number of entries)` and
leaves the escrow FUNDED; with 2 or more entries the release succeeds
(escrow RELEASED); and the behaviour is independent of the configured
`multisig_config` (in particular of `required_count`). -/
theorem C2_release_multisig_two_signature_gate (st : ServiceState)
    (eid auth : String) (sig : Option String) (now : Nat)
    (e : EscrowPayment) (p : PaymentIntent) (c' : MultisigConfig)
    (he : dictGet st.escrow_payments eid = some e)
    (hst : e.status = .funded)
    (hp : dictGet st.payment_intents e.payment_intent_id = some p)
    (hm : p.requires_multisig = true) :
    ((applyReleaseSignature e auth sig).signatures.length < 2 →
      release_escrow_payment st eid auth sig now =
        ({ success := false
           payment_intent_id := some p.intent_id
           error := some ("Need "
             ++ toString
               (2 - (applyReleaseSignature e auth sig).signatures.length)
             ++ " more signature(s)") },
         { st with
           escrow_payments := dictSet st.escrow_payments eid
             (applyReleaseSignature e auth sig) }) ∧
      (applyReleaseSignature e auth sig).status = .funded) ∧
    (2 ≤ (applyReleaseSignature e auth sig).signatures.length →
      (release_escrow_payment st eid auth sig now).1.success = true ∧
      (release_escrow_payment st eid auth sig now).1.status
        = some .finalized ∧
      dictGet
          (release_escrow_payment st eid auth sig now).2.escrow_payments
          eid
        = some { applyReleaseSignature e auth sig with
            status := .released
            released_at := some now }) ∧
    release_escrow_payment { st with multisig_config := c' } eid auth sig
        now
      = ((release_escrow_payment st eid auth sig now).1,
         { (release_escrow_payment st eid auth sig now).2 with
           multisig_config := c' }) := by
  refine ⟨fun hlt => ?_, fun hge => ?_, ?_⟩
  · have hfull : (applyReleaseSignature e auth sig).is_fully_signed = false
      := by
      simp [EscrowPayment.is_fully_signed]
      omega
    constructor
    · simp [release_escrow_payment, he, hst, hp, hm, hfull]
    · rw [applyReleaseSignature_status]
      exact hst
  · have hfull : (applyReleaseSignature e auth sig).is_fully_signed = true
      := by
      simp [EscrowPayment.is_fully_signed]
      omega
    simp [release_escrow_payment, he, hst, hp, hm, hfull,
      dictGet_dictSet_self]
  · by_cases hfull : (applyReleaseSignature e auth sig).is_fully_signed
      <;> simp [release_escrow_payment, he, hst, hp, hm, hfull]

/-- C2 witness: `multisigScenarioState` with one collected signature and
no signature argument: release fails needing `2 - 1` more signature(s),
the escrow stays FUNDED, and the outcome ignores a `required_count` of 5.
-/
theorem C2_witness :
    (release_escrow_payment multisigScenarioState ("e1") ("auth") none 5 =
      ({ success := false
         payment_intent_id := some multisigIntent.intent_id
         error := some ("Need "
           ++ toString
             (2 - (applyReleaseSignature multisigEscrow ("auth")
                none).signatures.length)
           ++ " more signature(s)") },
       { multisigScenarioState with
         escrow_payments := dictSet multisigScenarioState.escrow_payments
           ("e1") (applyReleaseSignature multisigEscrow ("auth") none) })
     ∧
     (applyReleaseSignature multisigEscrow ("auth") none).status = .funded)
    ∧
    release_escrow_payment
        { multisigScenarioState with
          multisig_config :=
            { threshold_usd := 0, required_signers := [],
              required_count := 5 } } ("e1") ("auth") none 5
      = ((release_escrow_payment multisigScenarioState ("e1") ("auth") none
            5).1,
         { (release_escrow_payment multisigScenarioState ("e1") ("auth")
             none 5).2 with
           multisig_config :=
             { threshold_usd := 0, required_signers := [],
               required_count := 5 } }) :=
  ⟨(C2_release_multisig_two_signature_gate multisigScenarioState ("e1")
      ("auth") none 5 multisigEscrow multisigIntent
      { threshold_usd := 0, required_signers := [], required_count := 5 }
      (by decide) (by decide) (by decide) (by decide)).1 (by decide),
   (C2_release_multisig_two_signature_gate multisigScenarioState ("e1")
      ("auth") none 5 multisigEscrow multisigIntent
      { threshold_usd := 0, required_signers := [], required_count := 5 }
      (by decide) (by decide) (by decide) (by decide)).2.2⟩

/-! ## Claim C9: the auto-reload routine is a per-day no-op frame -/

/-- C9: for a wallet with a registered, auto-reload-enabled notification:
(1) the reload routine `_execute_auto_reload` changes nothing of the
notification record except `last_reloaded_at` and `reload_count_today`;
(2) `check_balance_and_notify` creates no payment intent, appends nothing
to the payment history, touches no escrow, and leaves every other
wallet's notification record alone; (3) a second invocation of the reload
routine on the same day is a no-op on the record (at most one reload per
day). -/
theorem C9_auto_reload_frame (st : ServiceState) (w : String)
    (n : BalanceNotification) (balance : Rat) (force : Bool)
    (now now2 : Nat)
    (hw : dictGet st.balance_notifications w = some n)
    (har : n.auto_reload_enabled = true) :
    ((execute_auto_reload n now).wallet_address = n.wallet_address ∧
     (execute_auto_reload n now).threshold_usd = n.threshold_usd ∧
     (execute_auto_reload n now).callback_url = n.callback_url ∧
     (execute_auto_reload n now).auto_reload_enabled
       = n.auto_reload_enabled ∧
     (execute_auto_reload n now).auto_reload_amount
       = n.auto_reload_amount ∧
     (execute_auto_reload n now).auto_reload_max_daily
       = n.auto_reload_max_daily ∧
     (execute_auto_reload n now).last_notified_at = n.last_notified_at) ∧
    ((check_balance_and_notify st w balance force now).2.payment_intents
       = st.payment_intents ∧
     (check_balance_and_notify st w balance force now).2.payment_history
       = st.payment_history ∧
     (check_balance_and_notify st w balance force now).2.escrow_payments
       = st.escrow_payments ∧
     ∀ w2, w ≠ w2 →
       dictGet (check_balance_and_notify st w balance force
           now).2.balance_notifications w2
         = dictGet st.balance_notifications w2) ∧
    (dateOf now2 = dateOf now →
      execute_auto_reload (execute_auto_reload n now) now2
        = execute_auto_reload n now) := by
  refine ⟨?_, ?_, ?_⟩
  · simp only [execute_auto_reload]
    split
    · exact ⟨rfl, rfl, rfl, rfl, rfl, rfl, rfl⟩
    · split
      · exact ⟨rfl, rfl, rfl, rfl, rfl, rfl, rfl⟩
      · exact ⟨rfl, rfl, rfl, rfl, rfl, rfl, rfl⟩
  · simp only [check_balance_and_notify, hw]
    split
    · exact ⟨rfl, rfl, rfl, fun w2 h2 => rfl⟩
    · split
      · exact ⟨rfl, rfl, rfl, fun w2 h2 => rfl⟩
      · exact ⟨rfl, rfl, rfl, fun w2 h2 => dictGet_dictSet_ne _ _ h2⟩
  · intro hday
    cases hlast : n.last_reloaded_at with
    | none =>
      simp [execute_auto_reload, hlast, hday]
    | some last =>
      by_cases hsame : dateOf last = dateOf now
      · simp [execute_auto_reload, hlast, hsame, hday]
      · simp [execute_auto_reload, hlast, hsame, hday]

/-- C9 witness: wallet `"w1"`, balance 5 below threshold 10, reload at
time 1000 and again at 2000 (the same day). -/
theorem C9_witness :
    (execute_auto_reload reloadNotification 1000).last_notified_at
      = reloadNotification.last_notified_at ∧
    (check_balance_and_notify reloadService ("w1") 5 false
        1000).2.payment_intents = reloadService.payment_intents ∧
    (check_balance_and_notify reloadService ("w1") 5 false
        1000).2.payment_history = reloadService.payment_history ∧
    dictGet (check_balance_and_notify reloadService ("w1") 5 false
        1000).2.balance_notifications ("w2")
      = dictGet reloadService.balance_notifications ("w2") ∧
    execute_auto_reload (execute_auto_reload reloadNotification 1000) 2000
      = execute_auto_reload reloadNotification 1000 := by
  have H := C9_auto_reload_frame reloadService ("w1") reloadNotification 5
    false 1000 2000 rfl rfl
  exact ⟨H.1.2.2.2.2.2.2, H.2.1.1, H.2.1.2.1,
    H.2.1.2.2.2 ("w2") (by decide), H.2.2 (by decide)⟩

/-! ## Claim C6: RESOLVED reviews and the way back to SUBMITTED -/

/-- C6 counterexample: the claim says no operation ever moves a RESOLVED
review back to SUBMITTED, but `submit_review` has no status guard: after
create → submit → dispute → resolve the review is RESOLVED, and one more
`submit_review` call puts it back to SUBMITTED. -/
theorem C6_counterexample :
    ((dictGet (runReview ReviewState.empty
        [ReviewOp.create ("P") ("R") ("sk") 5 true ("good") ("c") ("r1") 0,
         ReviewOp.submit ("r1"),
         ReviewOp.dispute ("r1") ("R") ("bad") [] ("d1") 1,
         ReviewOp.resolve ("d1") .approved none 2]).reviews ("r1")).map
      Review.status = some .resolved) ∧
    ((dictGet (runReview ReviewState.empty
        [ReviewOp.create ("P") ("R") ("sk") 5 true ("good") ("c") ("r1") 0,
         ReviewOp.submit ("r1"),
         ReviewOp.dispute ("r1") ("R") ("bad") [] ("d1") 1,
         ReviewOp.resolve ("d1") .approved none 2,
         ReviewOp.submit ("r1")]).reviews ("r1")).map
      Review.status = some .submitted) := by
  decide

/-- C6 (amended): the only review-service operation that moves a RESOLVED
review's status to SUBMITTED is `submit_review` on that review (which
does so unconditionally); `create_review`, `file_dispute`,
`resolve_dispute` and `vote_review` never do. -/
theorem C6_resolved_escape_only_via_submit (st : ReviewState)
    (op : ReviewOp) (rid : String) (r r2 : Review)
    (h : dictGet st.reviews rid = some r)
    (h2 : dictGet (stepReview st op).reviews rid = some r2)
    (hr : r.status = .resolved)
    (hs : r2.status = .submitted) :
    op = .submit rid := by
  cases op with
  | create p rn sk ra ot q c rid2 n =>
    exfalso
    simp only [stepReview, create_review] at h2
    rw [dictGet_dictSet] at h2
    split at h2
    · injection h2 with h2
      subst h2
      simp at hs
    · rw [h] at h2
      injection h2 with h2
      subst h2
      rw [hr] at hs
      simp at hs
  | submit rid2 =>
    rcases hrev : dictGet st.reviews rid2 with _ | rev
    · exfalso
      simp only [stepReview, submit_review, hrev] at h2
      rw [h] at h2
      injection h2 with h2
      subst h2
      rw [hr] at hs
      simp at hs
    · simp only [stepReview, submit_review, hrev] at h2
      rw [dictGet_dictSet] at h2
      split at h2
      · rename_i heq
        rw [heq]
      · exfalso
        rw [h] at h2
        injection h2 with h2
        subst h2
        rw [hr] at hs
        simp at hs
  | dispute rid2 fb rs ev did n =>
    exfalso
    rcases hrev : dictGet st.reviews rid2 with _ | rev
    · simp only [stepReview, file_dispute, hrev] at h2
      rw [h] at h2
      injection h2 with h2
      subst h2
      rw [hr] at hs
      simp at hs
    · by_cases hstat : rev.status ≠ ReviewStatus.submitted
      · simp only [stepReview, file_dispute, hrev, if_pos hstat] at h2
        rw [h] at h2
        injection h2 with h2
        subst h2
        rw [hr] at hs
        simp at hs
      · simp only [stepReview, file_dispute, hrev, if_neg hstat] at h2
        rw [dictGet_dictSet] at h2
        split at h2
        · injection h2 with h2
          subst h2
          simp at hs
        · rw [h] at h2
          injection h2 with h2
          subst h2
          rw [hr] at hs
          simp at hs
  | resolve did res rc n =>
    exfalso
    rcases hd : dictGet st.disputes did with _ | dispute
    · simp only [stepReview, resolve_dispute, hd] at h2
      rw [h] at h2
      injection h2 with h2
      subst h2
      rw [hr] at hs
      simp at hs
    · by_cases hres : dispute.resolved = true
      · simp [stepReview, resolve_dispute, hd, hres] at h2
        rw [h] at h2
        injection h2 with h2
        subst h2
        rw [hr] at hs
        simp at hs
      · rcases hrv : dictGet st.reviews dispute.review_id with _ | review
        · simp [stepReview, resolve_dispute, hd, hres, hrv] at h2
          rw [h] at h2
          injection h2 with h2
          subst h2
          rw [hr] at hs
          simp at hs
        · simp [stepReview, resolve_dispute, hd, hres, hrv] at h2
          rw [dictGet_dictSet] at h2
          split at h2
          · injection h2 with h2
            subst h2
            simp at hs
          · rw [h] at h2
            injection h2 with h2
            subst h2
            rw [hr] at hs
            simp at hs
  | vote rid2 v hf vid n =>
    exfalso
    rcases hrev : dictGet st.reviews rid2 with _ | rev
    · simp only [stepReview, vote_review, hrev] at h2
      rw [h] at h2
      injection h2 with h2
      subst h2
      rw [hr] at hs
      simp at hs
    · simp only [stepReview, vote_review, hrev] at h2
      rw [dictGet_dictSet] at h2
      split at h2
      · rename_i heq
        rw [heq] at hrev
        rw [h] at hrev
        injection hrev with hrev
        subst hrev
        injection h2 with h2
        subst h2
        cases hf <;> simp at hs <;> rw [hr] at hs <;> simp at hs
      · rw [h] at h2
        injection h2 with h2
        subst h2
        rw [hr] at hs
        simp at hs

/-- C6 witness: `submit_review` on the concrete RESOLVED review is indeed
the `submit` operation the amended claim names. -/
theorem C6_witness :
    dictGet resolvedReviewState.reviews ("r1") = some resolvedReview ∧
    resolvedReview.status = .resolved ∧
    dictGet (stepReview resolvedReviewState
        (ReviewOp.submit ("r1"))).reviews ("r1")
      = some { resolvedReview with status := .submitted } ∧
    ReviewOp.submit ("r1") = ReviewOp.submit ("r1") :=
  ⟨rfl, rfl, by decide,
   C6_resolved_escape_only_via_submit resolvedReviewState
     (ReviewOp.submit ("r1")) ("r1") resolvedReview
     { resolvedReview with status := .submitted }
     rfl (by decide) rfl rfl⟩

/-! ## Claim C1: which operations move an intent to CANCELLED -/

/-- Helper: `execute_payment_intent` only ever (re)writes an intent with
status CONFIRMED or FAILED; any other stored intent is untouched. -/
theorem execute_intents_cases (st : ServiceState) (iid : String)
    (tr : Except String TransferReceipt) (pid : String) (now : Nat)
    (j : String) (q : PaymentIntent)
    (h2 : dictGet (execute_payment_intent st iid tr pid
        now).2.payment_intents j = some q) :
    dictGet st.payment_intents j = some q ∨
    q.status = .confirmed ∨ q.status = .failed := by
  rcases hi : dictGet st.payment_intents iid with _ | p
  · simp only [execute_payment_intent, hi] at h2
    exact Or.inl h2
  · simp only [execute_payment_intent, hi] at h2
    split at h2
    · exact Or.inl h2
    · split at h2
      · exact Or.inl h2
      · cases tr with
        | ok rec =>
          simp only at h2
          rw [dictGet_dictSet] at h2
          split at h2
          · injection h2 with h2
            subst h2
            exact Or.inr (Or.inl rfl)
          · exact Or.inl h2
        | error e =>
          simp only at h2
          rw [dictGet_dictSet] at h2
          split at h2
          · injection h2 with h2
            subst h2
            exact Or.inr (Or.inr rfl)
          · exact Or.inl h2

/-- C1 counterexample: the claim says an intent becomes CANCELLED only
from PENDING, but after `execute_escrow_payment` + a successful
`fund_escrow_payment` the linked intent is CONFIRMED, and
`refund_escrow_payment` then sets that CONFIRMED intent to CANCELLED. -/
theorem C1_counterexample :
    ((dictGet (runPay noMultisigService
        [PayOp.createEscrow ("e1") 2000 ("A") ("B") ("d") ("i1") 0,
         PayOp.fundEscrow ("e1") (.ok ⟨("sg"), ("url")⟩) ("p1")
           1]).payment_intents ("i1")).map PaymentIntent.status
      = some .confirmed) ∧
    ((dictGet (runPay noMultisigService
        [PayOp.createEscrow ("e1") 2000 ("A") ("B") ("d") ("i1") 0,
         PayOp.fundEscrow ("e1") (.ok ⟨("sg"), ("url")⟩) ("p1") 1,
         PayOp.refundEscrow ("e1") 2]).payment_intents ("i1")).map
        PaymentIntent.status = some .cancelled) := by
  decide

/-- C1 (amended): across all engine operations, an intent moves to
CANCELLED from a non-CANCELLED state in exactly two ways: via
`cancel_payment_intent` (and then only from PENDING), or via
`refund_escrow_payment` of a FUNDED escrow linked to it (which cancels
the intent whatever its status — in particular from CONFIRMED). -/
theorem C1_cancellation_sources (st : ServiceState) (op : PayOp)
    (iid : String) (p p2 : PaymentIntent)
    (h : dictGet st.payment_intents iid = some p)
    (h2 : dictGet (stepPay st op).payment_intents iid = some p2)
    (hold : p.status ≠ .cancelled)
    (hnew : p2.status = .cancelled) :
    (p.status = .pending ∧ op = .cancelIntent iid) ∨
    (∃ eid now e, op = .refundEscrow eid now ∧
      dictGet st.escrow_payments eid = some e ∧
      e.payment_intent_id = iid ∧ e.status = .funded) := by
  cases op with
  | createIntent a f t d i n =>
    exfalso
    simp only [stepPay, create_payment_intent] at h2
    split at h2
    · rw [h] at h2
      injection h2 with h2
      subst h2
      exact hold hnew
    · split at h2
      · rw [h] at h2
        injection h2 with h2
        subst h2
        exact hold hnew
      · rw [dictGet_dictSet] at h2
        split at h2
        · injection h2 with h2
          subst h2
          simp at hnew
        · rw [h] at h2
          injection h2 with h2
          subst h2
          exact hold hnew
  | executeIntent i tr pid n =>
    exfalso
    rcases execute_intents_cases st i tr pid n iid p2 h2 with hc | hc | hc
    · rw [h] at hc
      injection hc with hc
      subst hc
      exact hold hnew
    · rw [hnew] at hc
      simp at hc
    · rw [hnew] at hc
      simp at hc
  | cancelIntent i =>
    rcases hi : dictGet st.payment_intents i with _ | q
    · exfalso
      simp only [stepPay, cancel_payment_intent, hi] at h2
      rw [h] at h2
      injection h2 with h2
      subst h2
      exact hold hnew
    · by_cases hq : q.status ≠ PaymentStatus.pending
      · exfalso
        simp only [stepPay, cancel_payment_intent, hi, if_pos hq] at h2
        rw [h] at h2
        injection h2 with h2
        subst h2
        exact hold hnew
      · push_neg at hq
        have hqq : ¬ (q.status ≠ PaymentStatus.pending) := by simp [hq]
        simp only [stepPay, cancel_payment_intent, hi, if_neg hqq] at h2
        rw [dictGet_dictSet] at h2
        split at h2
        · rename_i heq
          subst heq
          rw [h] at hi
          injection hi with hi
          subst hi
          exact Or.inl ⟨hq, rfl⟩
        · exfalso
          rw [h] at h2
          injection h2 with h2
          subst h2
          exact hold hnew
  | createEscrow e a f t d i n =>
    exfalso
    by_cases h0 : a ≤ 0
    · simp only [stepPay, execute_escrow_payment, create_payment_intent,
        if_pos h0] at h2
      rw [h] at h2
      injection h2 with h2
      subst h2
      exact hold hnew
    · by_cases h1 : a < 1000
      · simp only [stepPay, execute_escrow_payment, create_payment_intent,
          if_neg h0, if_pos h1] at h2
        rw [h] at h2
        injection h2 with h2
        subst h2
        exact hold hnew
      · simp only [stepPay, execute_escrow_payment, create_payment_intent,
          if_neg h0, if_neg h1] at h2
        rw [dictGet_dictSet] at h2
        split at h2
        · injection h2 with h2
          subst h2
          simp at hnew
        · rw [h] at h2
          injection h2 with h2
          subst h2
          exact hold hnew
  | fundEscrow e tr pid n =>
    exfalso
    rcases he : dictGet st.escrow_payments e with _ | esc
    · simp only [stepPay, fund_escrow_payment, he] at h2
      rw [h] at h2
      injection h2 with h2
      subst h2
      exact hold hnew
    · simp only [stepPay, fund_escrow_payment, he] at h2
      split at h2
      · rw [h] at h2
        injection h2 with h2
        subst h2
        exact hold hnew
      · split at h2
        · rcases execute_intents_cases st esc.payment_intent_id tr pid n
              iid p2 h2 with hc | hc | hc
          · rw [h] at hc
            injection hc with hc
            subst hc
            exact hold hnew
          · rw [hnew] at hc
            simp at hc
          · rw [hnew] at hc
            simp at hc
        · rcases execute_intents_cases st esc.payment_intent_id tr pid n
              iid p2 h2 with hc | hc | hc
          · rw [h] at hc
            injection hc with hc
            subst hc
            exact hold hnew
          · rw [hnew] at hc
            simp at hc
          · rw [hnew] at hc
            simp at hc
  | releaseEscrow e auth sg n =>
    exfalso
    rcases he : dictGet st.escrow_payments e with _ | esc
    · simp only [stepPay, release_escrow_payment, he] at h2
      rw [h] at h2
      injection h2 with h2
      subst h2
      exact hold hnew
    · simp only [stepPay, release_escrow_payment, he] at h2
      split at h2
      · rw [h] at h2
        injection h2 with h2
        subst h2
        exact hold hnew
      · split at h2
        · split at h2
          · rw [h] at h2
            injection h2 with h2
            subst h2
            exact hold hnew
          · rw [h] at h2
            injection h2 with h2
            subst h2
            exact hold hnew
        · rw [h] at h2
          injection h2 with h2
          subst h2
          exact hold hnew
  | refundEscrow e n =>
    rcases he : dictGet st.escrow_payments e with _ | esc
    · exfalso
      simp only [stepPay, refund_escrow_payment, he] at h2
      rw [h] at h2
      injection h2 with h2
      subst h2
      exact hold hnew
    · by_cases hfd : esc.status ≠ EscrowPaymentStatus.funded
      · exfalso
        simp only [stepPay, refund_escrow_payment, he, if_pos hfd] at h2
        rw [h] at h2
        injection h2 with h2
        subst h2
        exact hold hnew
      · push_neg at hfd
        have hcond : ¬ (esc.status ≠ EscrowPaymentStatus.funded) := by
          simp [hfd]
        simp only [stepPay, refund_escrow_payment, he, if_neg hcond] at h2
        rcases hpi : dictGet st.payment_intents esc.payment_intent_id
          with _ | q
        · exfalso
          simp only [hpi] at h2
          rw [h] at h2
          injection h2 with h2
          subst h2
          exact hold hnew
        · simp only [hpi] at h2
          rw [dictGet_dictSet] at h2
          split at h2
          · rename_i heq
            exact Or.inr ⟨e, n, esc, rfl, he, heq, hfd⟩
          · exfalso
            rw [h] at h2
            injection h2 with h2
            subst h2
            exact hold hnew

/-- C1 witness: cancelling a concrete PENDING intent is covered by the
`cancel_payment_intent` arm of the amended claim. -/
theorem C1_witness :
    dictGet pendingIntentState.payment_intents ("i1") = some pendingIntent
    ∧
    dictGet (stepPay pendingIntentState
        (PayOp.cancelIntent ("i1"))).payment_intents ("i1")
      = some { pendingIntent with status := .cancelled } ∧
    ((pendingIntent.status = .pending ∧
       PayOp.cancelIntent ("i1") = .cancelIntent ("i1")) ∨
     (∃ eid now e, PayOp.cancelIntent ("i1") = .refundEscrow eid now ∧
       dictGet pendingIntentState.escrow_payments eid = some e ∧
       e.payment_intent_id = ("i1") ∧ e.status = .funded)) :=
  ⟨rfl, by decide,
   C1_cancellation_sources pendingIntentState (PayOp.cancelIntent ("i1"))
     ("i1") pendingIntent { pendingIntent with status := .cancelled }
     rfl (by decide) (by decide) rfl⟩

/-! ## Claim C5: full escrow round trip on a non-multisig intent -/

/-- C5: creating an escrow payment with amount ≥ the minimum and strictly
below the multisig threshold, then funding (with the adapter succeeding)
and releasing it, succeeds end to end: the funded intent is CONFIRMED
(execution alone), the release result reports FINALIZED, and the final
escrow is RELEASED with `released_at` set. -/
theorem C5_escrow_round_trip (st : ServiceState) (eid iid : String)
    (amount : Int) (fw tw d : String) (t0 : Nat) (rec : TransferReceipt)
    (pid : String) (t1 : Nat) (auth : String) (t2 : Nat)
    (hmin : 1000 ≤ amount)
    (hlt : (amount : Rat) / 1000000 < st.multisig_config.threshold_usd) :
    ∃ ep st1 r1 st2 r2 st3,
      execute_escrow_payment st eid amount fw tw d iid t0 = (.ok ep, st1) ∧
      fund_escrow_payment st1 eid (.ok rec) pid t1 = (r1, st2) ∧
      release_escrow_payment st2 eid auth none t2 = (r2, st3) ∧
      r1.success = true ∧
      (dictGet st2.payment_intents iid).map PaymentIntent.status
        = some .confirmed ∧
      r2.success = true ∧
      r2.status = some .finalized ∧
      (dictGet st3.escrow_payments eid).map EscrowPayment.status
        = some .released ∧
      (dictGet st3.escrow_payments eid).map EscrowPayment.released_at
        = some (some t2) := by
  have h0 : ¬ (amount ≤ 0) := by omega
  have h1 : ¬ (amount < 1000) := by omega
  have hd : decide (st.multisig_config.threshold_usd
      ≤ (amount : Rat) / 1000000) = false :=
    decide_eq_false (not_le.mpr hlt)
  obtain ⟨ex1, st1, hex⟩ :
      ∃ a b, execute_escrow_payment st eid amount fw tw d iid t0 = (a, b) :=
    ⟨_, _, rfl⟩
  obtain ⟨r1, st2, hfund⟩ :
      ∃ a b, fund_escrow_payment st1 eid (.ok rec) pid t1 = (a, b) :=
    ⟨_, _, rfl⟩
  obtain ⟨r2, st3, hrel⟩ :
      ∃ a b, release_escrow_payment st2 eid auth none t2 = (a, b) :=
    ⟨_, _, rfl⟩
  have hexKeep := hex
  have hfundKeep := hfund
  have hrelKeep := hrel
  simp only [execute_escrow_payment, create_payment_intent, if_neg h0,
    if_neg h1] at hex
  injection hex with hexA hexB
  subst hexA
  subst hexB
  simp [fund_escrow_payment, execute_payment_intent, dictGet_dictSet_self,
    hd] at hfund
  obtain ⟨hfundA, hfundB⟩ := hfund
  subst hfundA
  subst hfundB
  simp [release_escrow_payment, applyReleaseSignature,
    dictGet_dictSet_self, hd] at hrel
  obtain ⟨hrelA, hrelB⟩ := hrel
  subst hrelA
  subst hrelB
  refine ⟨_, _, _, _, _, _, hexKeep, hfundKeep, hrelKeep, ?_, ?_, ?_, ?_,
    ?_, ?_⟩
  · rfl
  · simp [dictGet_dictSet_self]
  · rfl
  · rfl
  · simp [dictGet_dictSet_self]
  · simp [dictGet_dictSet_self]

/-- C5 witness: a concrete round trip — amount 2000 against threshold
1000 USD. -/
theorem C5_witness :
    (1000 : Int) ≤ 2000 ∧
    ((2000 : Int) : Rat) / 1000000
      < (ServiceState.init
          { threshold_usd := 1000,
            required_signers := [] }).multisig_config.threshold_usd ∧
    (∃ ep st1 r1 st2 r2 st3,
      execute_escrow_payment
          (ServiceState.init { threshold_usd := 1000, required_signers := [] })
          ("e1") 2000 ("A") ("B") ("d") ("i1") 0 = (.ok ep, st1) ∧
      fund_escrow_payment st1 ("e1") (.ok ⟨("sg"), ("url")⟩) ("p1") 1
        = (r1, st2) ∧
      release_escrow_payment st2 ("e1") ("auth") none 2 = (r2, st3) ∧
      r1.success = true ∧
      (dictGet st2.payment_intents ("i1")).map PaymentIntent.status
        = some .confirmed ∧
      r2.success = true ∧
      r2.status = some .finalized ∧
      (dictGet st3.escrow_payments ("e1")).map EscrowPayment.status
        = some .released ∧
      (dictGet st3.escrow_payments ("e1")).map EscrowPayment.released_at
        = some (some 2)) :=
  ⟨by norm_num,
   by norm_num [ServiceState.init],
   C5_escrow_round_trip
     (ServiceState.init { threshold_usd := 1000, required_signers := [] })
     ("e1") ("i1") 2000 ("A") ("B") ("d") 0 ⟨("sg"), ("url")⟩ ("p1") 1
     ("auth") 2 (by norm_num) (by norm_num [ServiceState.init])⟩

/-! ## Sorting and aggregation lemmas for the review claims -/

theorem mem_insertDescByCreated (x y : Review) (l : List Review) :
    y ∈ insertDescByCreated x l ↔ y = x ∨ y ∈ l := by
  induction l with
  | nil => simp [insertDescByCreated]
  | cons hd tl ih =>
    by_cases h : hd.created_at ≤ x.created_at
    · simp [insertDescByCreated, h]
    · simp [insertDescByCreated, h, ih]
      tauto

theorem mem_sortDescByCreated (y : Review) (l : List Review) :
    y ∈ sortDescByCreated l ↔ y ∈ l := by
  induction l with
  | nil => simp [sortDescByCreated]
  | cons hd tl ih =>
    simp [sortDescByCreated, mem_insertDescByCreated, ih]

theorem insertDescByCreated_replicate (x : Review) (k : Nat) :
    insertDescByCreated x (List.replicate k x) = x :: List.replicate k x
    := by
  cases k with
  | zero => simp [insertDescByCreated]
  | succ k => simp [List.replicate_succ, insertDescByCreated]

theorem sortDescByCreated_replicate (x : Review) (n : Nat) :
    sortDescByCreated (List.replicate n x) = List.replicate n x := by
  induction n with
  | zero => simp [sortDescByCreated]
  | succ n ih =>
    simp [List.replicate_succ, sortDescByCreated, ih,
      insertDescByCreated_replicate]

theorem filterMap_replicate_some {α β : Type} (f : α → Option β) (a : α)
    (b : β) (h : f a = some b) (n : Nat) :
    List.filterMap f (List.replicate n a) = List.replicate n b := by
  induction n with
  | zero => simp
  | succ n ih => simp [List.replicate_succ, List.filterMap_cons, h, ih]

/-- Python `round(q, 2)` is the identity on integral rationals. -/
theorem round2_intCast (z : Int) : round2 ((z : Rat)) = (z : Rat) := by
  simp only [round2, roundHalfEven]
  rw [show ((z : Rat) * 100) = ((100 * z : Int) : Rat) by push_cast; ring]
  rw [Int.floor_intCast]
  norm_num

/-! ## Claim C7: the insufficient-reviews sentinel -/

/-- C7 counterexample: with 51 SUBMITTED reviews and `min_reviews = 60`
(fewer than `min_reviews` exist, so the claim applies and demands
`total_reviews` = the actual count 51), `calculate_agent_rating` reports
`total_reviews = 50` — its query is capped at the default limit 50. -/
theorem C7_counterexample :
    (get_agent_reviews fiftyOneReviewState ("ag") (some .submitted)
        1000).length = 51 ∧
    (calculate_agent_rating fiftyOneReviewState ("ag") 60).total_reviews
      = 50 ∧
    (50 : Nat) ≠ 51 := by
  decide

/-- C7 (amended): `calculate_agent_rating` considers only the agent's
SUBMITTED reviews, as returned by `get_agent_reviews` capped at the
default query limit 50 (for an agent with at most 50 SUBMITTED reviews
this is exactly the actual count); whenever that capped count is below
`min_reviews` it returns the sentinel (`rating="insufficient_reviews"`,
`total_reviews` = the capped count, zeroed average/on-time fields, empty
quality breakdown) rather than failing. -/
theorem C7_insufficient_reviews_sentinel (st : ReviewState)
    (agent : String) (min_reviews : Int)
    (hcount : ((get_agent_reviews st agent (some .submitted) 50).length
      : Int) < min_reviews) :
    calculate_agent_rating st agent min_reviews =
      { agent := agent
        total_reviews :=
          (get_agent_reviews st agent (some .submitted) 50).length
        average_rating := 0
        on_time_rate := 0
        helpful_rate := none
        quality_breakdown := []
        rating := ("insufficient_reviews") } ∧
    (∀ r ∈ get_agent_reviews st agent (some .submitted) 50,
      r.status = .submitted) ∧
    (∀ limit1 limit2, limit1 ≤ limit2 →
      get_agent_reviews st agent (some .submitted) limit1
        = (get_agent_reviews st agent (some .submitted) limit2).take
            limit1) := by
  refine ⟨?_, ?_, ?_⟩
  · simp only [calculate_agent_rating, if_pos hcount]
  · intro r hr
    simp only [get_agent_reviews] at hr
    have hr2 := List.take_subset _ _ hr
    rw [mem_sortDescByCreated] at hr2
    obtain ⟨rid, _, hf⟩ := List.mem_filterMap.mp hr2
    rcases hg : dictGet st.reviews rid with _ | r3
    · simp [hg] at hf
    · simp only [hg] at hf
      by_cases hs : r3.status = ReviewStatus.submitted
      · simp only [if_pos hs] at hf
        injection hf with hf
        subst hf
        exact hs
      · simp [if_neg hs] at hf
  · intro limit1 limit2 hle
    simp only [get_agent_reviews]
    rw [List.take_take, min_eq_left hle]

/-- C7 witness: an agent with no reviews at all and the default
`min_reviews = 1` gets the sentinel with `total_reviews = 0`. -/
theorem C7_witness :
    ((get_agent_reviews ReviewState.empty ("ag") (some .submitted)
        50).length : Int) < 1 ∧
    calculate_agent_rating ReviewState.empty ("ag") 1 =
      { agent := ("ag")
        total_reviews := 0
        average_rating := 0
        on_time_rate := 0
        helpful_rate := none
        quality_breakdown := []
        rating := ("insufficient_reviews") } ∧
    get_agent_reviews ReviewState.empty ("ag") (some .submitted) 3
      = (get_agent_reviews ReviewState.empty ("ag") (some .submitted)
          5).take 3 := by
  have H := C7_insufficient_reviews_sentinel ReviewState.empty ("ag") 1
    (by decide)
  exact ⟨by decide, H.1, H.2.2 3 5 (by decide)⟩

/-- Helper: when an agent's index holds n copies of one stored review id,
`get_agent_reviews` (with no status filter, or filtering on the review's
own status SUBMITTED) returns n copies of that review, up to `limit`. -/
theorem get_agent_reviews_replicate (S : ReviewState) (p rid : String)
    (r3 : Review) (n limit : Nat)
    (hlook : dictGet S.reviews rid = some r3)
    (hix : dictGet S.review_ids_by_agent p = some (List.replicate n rid))
    (hst : r3.status = .submitted)
    (hn : n ≤ limit) :
    get_agent_reviews S p none limit = List.replicate n r3 ∧
    get_agent_reviews S p (some .submitted) limit = List.replicate n r3
    := by
  have hf1 : List.filterMap (fun rid2 =>
      match dictGet S.reviews rid2 with
      | some r4 => some r4
      | none => none) (List.replicate n rid) = List.replicate n r3 :=
    filterMap_replicate_some _ rid r3 (by simp [hlook]) n
  have hf2 : List.filterMap (fun rid2 =>
      match dictGet S.reviews rid2 with
      | some r4 =>
        if r4.status = ReviewStatus.submitted then some r4 else none
      | none => none) (List.replicate n rid) = List.replicate n r3 :=
    filterMap_replicate_some _ rid r3 (by simp [hlook, hst]) n
  constructor
  · simp only [get_agent_reviews, hix, Option.getD_some]
    rw [hf1, sortDescByCreated_replicate]
    exact List.take_of_length_le (by simp [hn])
  · simp only [get_agent_reviews, hix, Option.getD_some]
    rw [hf2, sortDescByCreated_replicate]
    exact List.take_of_length_le (by simp [hn])

/-! ## Claim C10: duplicate submission inflates the provider index -/

/-- C10 counterexample: one review submitted 51 times is indexed 51
times, but appears only 50 times in `get_agent_reviews` (default limit
50), not 51 as the claim states. -/
theorem C10_counterexample :
    ((dictGet resubmit51State.review_ids_by_agent ("ag")).getD []).length
      = 51 ∧
    (get_agent_reviews resubmit51State ("ag") none 50).length = 50 ∧
    (50 : Nat) ≠ 51 := by
  decide

/-- Helper: iterating `submit_review` n ≥ 1 times on a stored review with
a previously unindexed provider yields the submitted review stored once
and the provider index holding n copies of its id. -/
theorem submit_iterate_state (st0 : ReviewState) (rid : String)
    (r : Review) (hr : dictGet st0.reviews rid = some r)
    (hidx : dictGet st0.review_ids_by_agent r.provider = none) :
    ∀ n, 1 ≤ n →
      ((fun s => (submit_review s rid).2)^[n] st0).reviews
        = dictSet st0.reviews rid { r with status := .submitted } ∧
      ((fun s => (submit_review s rid).2)^[n] st0).review_ids_by_agent
        = dictSet st0.review_ids_by_agent r.provider
            (List.replicate n rid) := by
  intro n
  induction n with
  | zero => omega
  | succ n ih =>
    intro _
    by_cases hn : 1 ≤ n
    · obtain ⟨ihrev, ihidx⟩ := ih hn
      simp only [Function.iterate_succ_apply']
      set S := (fun s => (submit_review s rid).2)^[n] st0 with hS
      have hlook : dictGet S.reviews rid
          = some { r with status := .submitted } := by
        rw [ihrev]
        exact dictGet_dictSet_self _ _ _
      constructor
      · simp only [submit_review, hlook]
        simp only [ihrev]
        rw [dictSet_dictSet]
      · simp only [submit_review, hlook, indexAppend]
        simp only [ihidx, dictGet_dictSet_self]
        rw [dictSet_dictSet, ← List.replicate_succ']
    · have hn0 : n = 0 := by omega
      subst hn0
      simp only [Function.iterate_succ_apply', Function.iterate_zero_apply]
      constructor
      · simp [submit_review, hr]
      · simp [submit_review, hr, indexAppend, hidx]

/-- C10 (amended): `submit_review` on any existing review appends its id
to the provider's index unconditionally (whatever the review's status,
and even if already present); a review submitted n times (1 ≤ n ≤ 50,
the default query limit) is indexed n times, appears n times in
`get_agent_reviews`, and is counted n times in
`calculate_agent_rating`'s `total_reviews` (the mean of the n identical
copies being the review's own rating); for n > 50 the appearance count
is capped at 50. -/
theorem C10_submit_duplicates_counted (st0 : ReviewState) (rid : String)
    (r : Review) (n : Nat)
    (hr : dictGet st0.reviews rid = some r)
    (hidx : dictGet st0.review_ids_by_agent r.provider = none)
    (hn1 : 1 ≤ n) (hn50 : n ≤ 50) :
    (∀ st1 r1, dictGet st1.reviews rid = some r1 →
      dictGet (submit_review st1 rid).2.review_ids_by_agent r1.provider
        = some (((dictGet st1.review_ids_by_agent r1.provider).getD [])
            ++ [rid])) ∧
    dictGet ((fun s => (submit_review s rid).2)^[n]
        st0).review_ids_by_agent r.provider
      = some (List.replicate n rid) ∧
    get_agent_reviews ((fun s => (submit_review s rid).2)^[n] st0)
        r.provider none 50
      = List.replicate n { r with status := .submitted } ∧
    (calculate_agent_rating ((fun s => (submit_review s rid).2)^[n] st0)
        r.provider 1).total_reviews = n ∧
    (calculate_agent_rating ((fun s => (submit_review s rid).2)^[n] st0)
        r.provider 1).average_rating = (r.rating : Rat) := by
  obtain ⟨hrev, hidx2⟩ := submit_iterate_state st0 rid r hr hidx n hn1
  have hlookup : dictGet ((fun s => (submit_review s rid).2)^[n]
      st0).reviews rid = some { r with status := .submitted } := by
    rw [hrev]
    exact dictGet_dictSet_self _ _ _
  have hix : dictGet ((fun s => (submit_review s rid).2)^[n]
      st0).review_ids_by_agent r.provider = some (List.replicate n rid)
    := by
    rw [hidx2]
    exact dictGet_dictSet_self _ _ _
  obtain ⟨hgetNone, hgetSub⟩ := get_agent_reviews_replicate
    ((fun s => (submit_review s rid).2)^[n] st0) r.provider rid
    { r with status := .submitted } n 50 hlookup hix rfl hn50
  refine ⟨?_, hix, hgetNone, ?_, ?_⟩
  · intro st1 r1 h1
    rcases hI : dictGet st1.review_ids_by_agent r1.provider with _ | l
    · simp [submit_review, h1, indexAppend, hI, dictGet_dictSet_self]
    · simp [submit_review, h1, indexAppend, hI, dictGet_dictSet_self]
  · have hnot : ¬ ((List.replicate n
        ({ r with status := .submitted } : Review)).length : Int) < 1 := by
      simp
      omega
    simp only [calculate_agent_rating, hgetSub, if_neg hnot]
    simp
  · have hnot : ¬ ((List.replicate n
        ({ r with status := .submitted } : Review)).length : Int) < 1 := by
      simp
      omega
    simp only [calculate_agent_rating, hgetSub, if_neg hnot]
    simp only [List.map_replicate, List.sum_replicate,
      List.length_replicate]
    have hn0 : (n : Rat) ≠ 0 := by
      simp
      omega
    rw [nsmul_eq_mul, mul_comm, mul_div_assoc, div_self hn0, mul_one]
    exact round2_intCast r.rating

/-- C10 witness: the sample review submitted 3 times is indexed 3 times
and counted 3 times with its own rating as the average. -/
theorem C10_witness :
    dictGet ((fun s => (submit_review s ("r1")).2)^[3]
        singleReviewState).review_ids_by_agent ("P")
      = some (List.replicate 3 ("r1")) ∧
    (calculate_agent_rating ((fun s => (submit_review s ("r1")).2)^[3]
        singleReviewState) ("P") 1).total_reviews = 3 ∧
    (calculate_agent_rating ((fun s => (submit_review s ("r1")).2)^[3]
        singleReviewState) ("P") 1).average_rating = ((5 : Int) : Rat) := by
  have H := C10_submit_duplicates_counted singleReviewState ("r1")
    resolvedReview 3 rfl rfl (by decide) (by decide)
  exact ⟨H.2.1, H.2.2.2.1, H.2.2.2.2⟩

end TrustyClaw
